import Mathlib

/-!
Verification of the IntelliDevice-Alert backend (medical-device adverse-event
reporting service) against its natural-language specification.

Each Lean definition below is a shallow embedding of one Python function of
the repository, translated directly from `backend/app/...`.  Machine-level
details are modelled as follows: Python strings are `String`, Python dicts
carrying heterogeneous report fields are association lists over an explicit
value type, real-valued scores are `ℚ`, datetimes are opaque ISO strings
(their `str`/`isoformat` renderings are the identity on that representation),
and the SHA-256 digest of `hashlib` is implemented bit-faithfully over `Nat`.
-/

/-! ## Python string primitives -/

/-- Python `needle in hay` on strings: contiguous-substring containment,
over the character sequences. -/
def containsSub (needle : List Char) : List Char → Bool
  | [] => needle.isEmpty
  | c :: rest => needle.isPrefixOf (c :: rest) || containsSub needle rest

/-- Python `kw in t` for strings. -/
def pyIn (needle hay : String) : Bool :=
  containsSub needle.data hay.data

/-- Python `s.lower()` (ASCII case folding, applied characterwise; the corpus
keywords are CJK and case-free, so the ASCII folding is the operative part). -/
def pyLower (s : String) : String :=
  ⟨s.data.map Char.toLower⟩

/-- ASCII whitespace stripped by Python `str.strip()`. -/
def isPySpace (c : Char) : Bool :=
  c = ' ' || c = '\t' || c = '\n' || c = '\r' || c = '\x0b' || c = '\x0c'

/-- Python `s.strip()`. -/
def pyStrip (s : String) : String :=
  ⟨((s.data.dropWhile isPySpace).reverse.dropWhile isPySpace).reverse⟩

/-! ## Severity classifier (`backend/app/services/severity.py`)

The Python module stores each keyword group as a `set`; iteration order over
a set is irrelevant here because the loops only test membership-style
existence (`return` on any hit).  The groups are embedded as lists in source
order. -/

def DEATH : List String :=
  ["死亡", "死", "无生命体征", "心跳停止", "呼吸停止", "去世"]

def SEVERE : List String :=
  ["危重", "重度", "休克", "呼吸衰竭", "心衰", "昏迷", "骨折", "脊髓损伤", "窒息", "截瘫"]

def MODERATE : List String :=
  ["中度", "住院", "手术", "严重不适", "加护", "监护", "输血", "明显疼痛"]

def MILD : List String :=
  ["轻度", "轻微", "皮肤红肿", "轻度疼痛", "短暂不适", "轻度不适"]

def NONE_KWS : List String :=
  ["无伤害", "未造成伤害", "未受影响", "无不适"]

def RISK_SEVERE : List String := ["危", "衰竭", "休克", "窒息"]

def RISK_MODERATE : List String := ["监护", "手术", "住院", "加护"]

/-- `any(k in t for k in kws)` / a `for` loop returning on the first hit. -/
def anyKw (kws : List String) (t : String) : Bool :=
  kws.any (fun kw => pyIn kw t)

/-- `classify(text)` from `severity.py`. -/
def classify (text : String) : String :=
  let t := pyLower text
  if anyKw DEATH t then "death"
  else if anyKw SEVERE t then "severe"
  else if anyKw MODERATE t then "moderate"
  else if anyKw MILD t then "mild"
  else if anyKw NONE_KWS t then "none"
  else if anyKw RISK_SEVERE t then "severe"
  else if anyKw RISK_MODERATE t then "moderate"
  else "none"

/-- One `{keyword, level}` evidence record of `classify_with_evidence`. -/
structure EvidenceItem where
  keyword : String
  level : String
deriving DecidableEq, Repr

/-- `classify_with_evidence(text)` from `severity.py`: the decided level plus
every matching keyword across the five primary groups (or, if none matched,
the secondary severe/moderate hits). -/
def classifyWithEvidence (text : String) : String × List EvidenceItem :=
  let t := pyLower text
  let primary :=
    (DEATH.filter (fun kw => pyIn kw t)).map (fun kw => EvidenceItem.mk kw "death")
    ++ (SEVERE.filter (fun kw => pyIn kw t)).map (fun kw => EvidenceItem.mk kw "severe")
    ++ (MODERATE.filter (fun kw => pyIn kw t)).map (fun kw => EvidenceItem.mk kw "moderate")
    ++ (MILD.filter (fun kw => pyIn kw t)).map (fun kw => EvidenceItem.mk kw "mild")
    ++ (NONE_KWS.filter (fun kw => pyIn kw t)).map (fun kw => EvidenceItem.mk kw "none")
  let evidence :=
    if primary.isEmpty then
      (RISK_SEVERE.filter (fun kw => pyIn kw t)).map (fun kw => EvidenceItem.mk kw "severe")
      ++ (RISK_MODERATE.filter (fun kw => pyIn kw t)).map (fun kw => EvidenceItem.mk kw "moderate")
    else primary
  (classify text, evidence)

/-! ## SHA-256 (`hashlib.sha256(...).hexdigest()` over UTF-8 bytes)

A bit-faithful FIPS 180-4 SHA-256 over `Nat`, so that the fingerprint of
`cleaning.py` is the genuine hex digest.  Thirty-two-bit words are naturals
reduced `% 2^32` at each arithmetic step. -/

def M32 : Nat := 4294967296

def rotr32 (n x : Nat) : Nat := ((x >>> n) ||| (x <<< (32 - n))) % M32

def bigSigma0 (x : Nat) : Nat := (rotr32 2 x).xor ((rotr32 13 x).xor (rotr32 22 x))

def bigSigma1 (x : Nat) : Nat := (rotr32 6 x).xor ((rotr32 11 x).xor (rotr32 25 x))

def smallSigma0 (x : Nat) : Nat := (rotr32 7 x).xor ((rotr32 18 x).xor (x >>> 3))

def smallSigma1 (x : Nat) : Nat := (rotr32 17 x).xor ((rotr32 19 x).xor (x >>> 10))

def chFn (e f g : Nat) : Nat := (e.land f).xor ((e.xor 4294967295).land g)

def majFn (a b c : Nat) : Nat := ((a.land b).xor (a.land c)).xor (b.land c)

def SHA_K : List Nat :=
  [1116352408, 1899447441, 3049323471, 3921009573,
   961987163, 1508970993, 2453635748, 2870763221,
   3624381080, 310598401, 607225278, 1426881987,
   1925078388, 2162078206, 2614888103, 3248222580,
   3835390401, 4022224774, 264347078, 604807628,
   770255983, 1249150122, 1555081692, 1996064986,
   2554220882, 2821834349, 2952996808, 3210313671,
   3336571891, 3584528711, 113926993, 338241895,
   666307205, 773529912, 1294757372, 1396182291,
   1695183700, 1986661051, 2177026350, 2456956037,
   2730485921, 2820302411, 3259730800, 3345764771,
   3516065817, 3600352804, 4094571909, 275423344,
   430227734, 506948616, 659060556, 883997877,
   958139571, 1322822218, 1537002063, 1747873779,
   1955562222, 2024104815, 2227730452, 2361852424,
   2428436474, 2756734187, 3204031479, 3329325298]

def SHA_H0 : List Nat :=
  [1779033703, 3144134277, 1013904242, 2773480762,
   1359893119, 2600822924, 528734635, 1541459225]

/-- Big-endian byte rendering of `n` on `k` bytes. -/
def bytesBE (k n : Nat) : List Nat :=
  (List.range k).map (fun i => (n >>> (8 * (k - 1 - i))) % 256)

/-- FIPS 180-4 padding: `0x80`, zeros, then the 64-bit big-endian bit length,
to a multiple of 64 bytes. -/
def sha256Pad (msg : List Nat) : List Nat :=
  let l := msg.length
  msg ++ [128] ++ List.replicate ((119 - l % 64) % 64) 0 ++ bytesBE 8 (8 * l)

def word32At (bs : List Nat) (i : Nat) : Nat :=
  bs.getD i 0 * 16777216 + bs.getD (i + 1) 0 * 65536 + bs.getD (i + 2) 0 * 256
    + bs.getD (i + 3) 0

def blockWords (blk : List Nat) : List Nat :=
  (List.range 16).map (fun i => word32At blk (4 * i))

/-- Message-schedule extension to 64 words. -/
def buildW (w16 : List Nat) : List Nat :=
  (List.range 48).foldl
    (fun w _ =>
      let i := w.length
      w ++ [(w.getD (i - 16) 0 + smallSigma0 (w.getD (i - 15) 0) + w.getD (i - 7) 0
              + smallSigma1 (w.getD (i - 2) 0)) % M32])
    w16

structure Hash8 where
  a : Nat
  b : Nat
  c : Nat
  d : Nat
  e : Nat
  f : Nat
  g : Nat
  hh : Nat
deriving Repr

def sha256Round (st : Hash8) (wk : Nat × Nat) : Hash8 :=
  let t1 := (st.hh + bigSigma1 st.e + chFn st.e st.f st.g + wk.2 + wk.1) % M32
  let t2 := (bigSigma0 st.a + majFn st.a st.b st.c) % M32
  ⟨(t1 + t2) % M32, st.a, st.b, st.c, (st.d + t1) % M32, st.e, st.f, st.g⟩

def sha256Compress (hs : List Nat) (blk : List Nat) : List Nat :=
  let w := buildW (blockWords blk)
  let s0 : Hash8 :=
    ⟨hs.getD 0 0, hs.getD 1 0, hs.getD 2 0, hs.getD 3 0,
     hs.getD 4 0, hs.getD 5 0, hs.getD 6 0, hs.getD 7 0⟩
  let st := (w.zip SHA_K).foldl sha256Round s0
  [(hs.getD 0 0 + st.a) % M32, (hs.getD 1 0 + st.b) % M32,
   (hs.getD 2 0 + st.c) % M32, (hs.getD 3 0 + st.d) % M32,
   (hs.getD 4 0 + st.e) % M32, (hs.getD 5 0 + st.f) % M32,
   (hs.getD 6 0 + st.g) % M32, (hs.getD 7 0 + st.hh) % M32]

def sha256Bytes (msg : List Nat) : List Nat :=
  let padded := sha256Pad msg
  let fin := (List.range (padded.length / 64)).foldl
    (fun hs i => sha256Compress hs ((padded.drop (64 * i)).take 64)) SHA_H0
  fin.foldr (fun w acc => bytesBE 4 w ++ acc) []

def hexDigitChar (n : Nat) : Char :=
  if n < 10 then Char.ofNat (48 + n) else Char.ofNat (87 + n)

def bytesToHex (bs : List Nat) : String :=
  ⟨bs.foldr (fun b acc => hexDigitChar (b / 16) :: hexDigitChar (b % 16) :: acc) []⟩

/-- UTF-8 encoding of one character (`str.encode("utf-8")`). -/
def charUtf8 (c : Char) : List Nat :=
  let n := c.toNat
  if n < 128 then [n]
  else if n < 2048 then [192 ||| (n >>> 6), 128 ||| (n &&& 63)]
  else if n < 65536 then
    [224 ||| (n >>> 12), 128 ||| ((n >>> 6) &&& 63), 128 ||| (n &&& 63)]
  else
    [240 ||| (n >>> 18), 128 ||| ((n >>> 12) &&& 63), 128 ||| ((n >>> 6) &&& 63),
     128 ||| (n &&& 63)]

def utf8Bytes (s : String) : List Nat :=
  (s.data.map charUtf8).flatten

/-- `hashlib.sha256(s.encode("utf-8")).hexdigest()`. -/
def sha256HexOfString (s : String) : String :=
  bytesToHex (sha256Bytes (utf8Bytes s))

/-! ## Payload dictionaries

`payload.dict()` results and other loosely typed report documents are
association lists from string keys to an explicit value type.  Datetimes are
carried as their (opaque) string rendering. -/

inductive Val where
  | vnone
  | vstr (s : String)
  | vlist (xs : List String)
deriving DecidableEq, Repr

abbrev PyDict := List (String × Val)

/-- `d.get(k)` (with Python `None` when the key is absent). -/
def dictGet (d : PyDict) (k : String) : Val :=
  (d.lookup k).getD .vnone

/-- `d[k] = v` (keys are unique in every dictionary built below; assignment
keeps the original key position). -/
def dictSet (d : PyDict) (k : String) (v : Val) : PyDict :=
  if d.any (fun kv => kv.1 == k) then
    d.map (fun kv => if kv.1 == k then (k, v) else kv)
  else d ++ [(k, v)]

/-- `d.pop(k)` discarding the value. -/
def dictPop (d : PyDict) (k : String) : PyDict :=
  d.filter (fun kv => kv.1 ≠ k)

/-- Python `str(value)` for the value shapes that occur in payloads. -/
def pyStr (v : Val) : String :=
  match v with
  | .vnone => "None"
  | .vstr s => s
  | .vlist xs =>
    "[" ++ String.intercalate ", " (xs.map (fun x => "\x27" ++ x ++ "\x27")) ++ "]"

/-! ## Cleaning & fingerprinting (`backend/app/services/cleaning.py`) -/

/-- `normalize_string(value)`: `None` becomes `""`, anything else is cast to
string, stripped and lowercased. -/
def normalizeVal (v : Val) : String :=
  match v with
  | .vnone => ""
  | _ => pyLower (pyStrip (pyStr v))

/-- `"|".join(parts)`. -/
def pipeJoin : List String → String
  | [] => ""
  | [p] => p
  | p :: rest => p ++ "|" ++ pipeJoin rest

/-- The pipe-joined normalized five identity fields hashed by `fingerprint`. -/
def fingerprintBase (d : PyDict) : String :=
  pipeJoin
    [normalizeVal (dictGet d "hospital_id"),
     normalizeVal (dictGet d "event_datetime"),
     normalizeVal (dictGet d "device_name"),
     normalizeVal (dictGet d "model"),
     normalizeVal (dictGet d "lot_sn")]

/-- `fingerprint(payload)` from `cleaning.py`. -/
def fingerprint (d : PyDict) : String :=
  sha256HexOfString (fingerprintBase d)

/-! ## De-identification (`backend/app/services/deidentify.py`) -/

def PII_FIELDS : List String :=
  ["patient_name", "patient_phone", "patient_identifier", "clinician_name"]

/-- `remove_pii(payload)`: the dict comprehension keeping only non-PII keys. -/
def removePii (d : PyDict) : PyDict :=
  d.filter (fun kv => !(PII_FIELDS.contains kv.1))

/-! ## JSON renderings used by the intake pipeline -/

def jsonEscape (s : String) : String :=
  ⟨s.data.foldr
    (fun c acc =>
      if c = '"' then '\\' :: '"' :: acc
      else if c = '\\' then '\\' :: '\\' :: acc
      else c :: acc) []⟩

def jsonStr (s : String) : String :=
  "\"" ++ jsonEscape s ++ "\""

/-- `json.dumps` of a list of strings (default separators). -/
def jsonStrList (xs : List String) : String :=
  "[" ++ String.intercalate ", " (xs.map jsonStr) ++ "]"

/-- `json.dumps({"level": lvl, "evidence": [...]}, ensure_ascii=False)` as
written by the severity-evidence audit entry. -/
def severityDetailJson (lvl : String) (ev : List EvidenceItem) : String :=
  "\x7b\"level\": " ++ jsonStr lvl ++ ", \"evidence\": ["
    ++ String.intercalate ", "
      (ev.map (fun e =>
        "\x7b\"keyword\": " ++ jsonStr e.keyword ++ ", \"level\": " ++ jsonStr e.level
          ++ "\x7d"))
    ++ "]\x7d"

/-! ## Data contracts (`backend/app/schemas.py`)

Pydantic construction-time validation (non-empty required fields, enum
membership of `injury_severity`) is not needed by the claims below and is
carried as side conditions where relevant.  Datetimes are opaque strings. -/

structure ReportIn where
  hospital_id : String
  device_name : String
  manufacturer : Option String := none
  model : Option String := none
  lot_sn : Option String := none
  event_datetime : Option String := none
  event_description : String
  injury_severity : String := "none"
  action_taken : Option String := none
  attachments : Option (List String) := none
  patient_name : Option String := none
  patient_phone : Option String := none
  patient_identifier : Option String := none
  clinician_name : Option String := none
deriving DecidableEq, Repr

def optVal : Option String → Val
  | none => .vnone
  | some s => .vstr s

def optListVal : Option (List String) → Val
  | none => .vnone
  | some xs => .vlist xs

/-- `payload.dict()`: pydantic renders the fields in declaration order. -/
def reportInDict (p : ReportIn) : PyDict :=
  [("hospital_id", .vstr p.hospital_id),
   ("device_name", .vstr p.device_name),
   ("manufacturer", optVal p.manufacturer),
   ("model", optVal p.model),
   ("lot_sn", optVal p.lot_sn),
   ("event_datetime", optVal p.event_datetime),
   ("event_description", .vstr p.event_description),
   ("injury_severity", .vstr p.injury_severity),
   ("action_taken", optVal p.action_taken),
   ("attachments", optListVal p.attachments),
   ("patient_name", optVal p.patient_name),
   ("patient_phone", optVal p.patient_phone),
   ("patient_identifier", optVal p.patient_identifier),
   ("clinician_name", optVal p.clinician_name)]

/-- The same submission with the four transient PII fields blanked; used to
state that the pipeline ignores PII values. -/
def scrubPII (p : ReportIn) : ReportIn :=
  { p with patient_name := none, patient_phone := none,
           patient_identifier := none, clinician_name := none }

structure ReportOut where
  report_id : String
  hospital_id : String
  device_name : String
  manufacturer : Option String
  model : Option String
  lot_sn : Option String
  event_datetime : String
  event_description : String
  injury_severity : String
  action_taken : Option String
  attachments : Option (List String)
  processed_at : String
  status : String
deriving DecidableEq, Repr

structure ReportStored where
  report_id : String
  hospital_id : String
  device_name : String
  manufacturer : Option String
  model : Option String
  lot_sn : Option String
  event_datetime : String
  event_description : String
  injury_severity : String
  action_taken : Option String
  attachments : Option (List String)
  processed_at : String
  status : String
  fingerprint : String
  source_version : String
deriving DecidableEq, Repr

/-- `ReportOut(**stored.dict())`. -/
def projOut (s : ReportStored) : ReportOut :=
  ⟨s.report_id, s.hospital_id, s.device_name, s.manufacturer, s.model, s.lot_sn,
   s.event_datetime, s.event_description, s.injury_severity, s.action_taken,
   s.attachments, s.processed_at, s.status⟩

/-! ## Relational persistence rows (`backend/app/models.py::ReportModel`) -/

structure RowM where
  report_id : String
  hospital_id : String
  device_name : String
  manufacturer : Option String
  model : Option String
  lot_sn : Option String
  event_datetime : String
  event_description : String
  injury_severity : String
  action_taken : Option String
  attachments : Option String
  processed_at : String
  status : String
  fingerprint : String
  source_version : String
deriving DecidableEq, Repr

/-- `json.dumps(stored.attachments) if stored.attachments else None`
(an empty list is falsy and also serializes to `None`). -/
def serializeAttachments : Option (List String) → Option String
  | none => none
  | some [] => none
  | some xs => some (jsonStrList xs)

/-! ## Storage façade (`backend/app/storage.py`) -/

/-- The fresh `ReportModel(...)` row built by `upsert_report`
(`isoformat()` is the identity on our ISO-string datetimes). -/
def rowOfStored (s : ReportStored) : RowM :=
  ⟨s.report_id, s.hospital_id, s.device_name, s.manufacturer, s.model, s.lot_sn,
   s.event_datetime, s.event_description, s.injury_severity, s.action_taken,
   serializeAttachments s.attachments, s.processed_at, s.status, s.fingerprint,
   s.source_version⟩

/-- The `else` branch of `upsert_report`: the primary-key row is mutated in
place, refreshing only `status` and `processed_at`. -/
def refreshStatusRow : List RowM → String → String → String → List RowM
  | [], _, _, _ => []
  | r :: rest, rid, st, pa =>
    if r.report_id == rid then { r with status := st, processed_at := pa } :: rest
    else r :: refreshStatusRow rest rid st pa

/-- `db.get(ReportModel, rid)`: primary-key fetch (first row with the id). -/
def dbGetRow (db : List RowM) (rid : String) : Option RowM :=
  db.find? (fun r => r.report_id == rid)

/-- `upsert_report(stored)` from `storage.py`: insert a full row when the id
is new, else refresh `status`/`processed_at`; returns the public projection. -/
def upsertReport (stored : ReportStored) (db : List RowM) : ReportOut × List RowM :=
  let db2 :=
    match dbGetRow db stored.report_id with
    | none => db ++ [rowOfStored stored]
    | some _ => refreshStatusRow db stored.report_id stored.status stored.processed_at
  (projOut stored, db2)

/-- `find_by_fingerprint(fp)`: first row whose fingerprint column matches. -/
def findByFingerprint (db : List RowM) (fp : String) : Option String :=
  (db.find? (fun r => r.fingerprint == fp)).map (fun r => r.report_id)

/-! ## Audit log (`backend/app/audit.py`)

`write` also mints a fresh uuid and stamps `utcnow()`; those metadata are
generated from the environment and are not read by any claim, so entries
carry the three payload fields. -/

structure AuditEntry where
  report_id : String
  event : String
  detail : Option String
deriving DecidableEq, Repr

/-! ## Pending-review queue state (`backend/app/db.py`)

The relational backend serializes pending documents with `json.dumps` and
parses them back on `pop`; the round-trip is the identity on these
documents, so the stored document is carried structurally. -/

structure MatchedTerm where
  category : String
  term : String
  code : String
  similarity : ℚ
  field : String
deriving DecidableEq, Repr

/-- The structure-analysis fields of a pending item that `review_confirm`
reads (`matched_terms`, `failure_mode`, `health_impact`, `device_issue`). -/
structure StructResult where
  matched_terms : List MatchedTerm
  failure_mode : String
  health_impact : String
  device_issue : String
deriving DecidableEq, Repr

/-- One parked low-confidence import:
`{"base": payload.dict(), "structure": sr, "score": ..., "suggest_llm": ...}`. -/
structure PendingData where
  base : ReportIn
  struc : StructResult
  score : ℚ
  suggest_llm : Bool
deriving DecidableEq, Repr

/-- `db.py::ReportRow` (report_id, serialized document, processed_at). -/
structure SqlReportRow where
  report_id : String
  data : String
  processed_at : String
deriving DecidableEq, Repr

/-- The three tables of `db.py::SqlDB`. -/
structure SqlDb where
  reportRows : List SqlReportRow
  fingerprintRows : List (String × String)
  pendingRows : List (String × PendingData)
deriving DecidableEq, Repr

/-- The four maps of `db.py::InMemoryDB` (`entities` is an unused
placeholder). -/
structure MemDb where
  reports : List (String × PyDict)
  entities : List (String × PyDict)
  fingerprints : List (String × String)
  pending : List (String × PendingData)
deriving DecidableEq, Repr

def removeFirstKey {α : Type} : List (String × α) → String → List (String × α)
  | [], _ => []
  | kv :: rest, k => if kv.1 == k then rest else kv :: removeFirstKey rest k

/-- `SqlDB.pop_pending`: primary-key fetch; absent row returns `None` without
touching the session, else the row is deleted and its document returned. -/
def popPendingSql (s : SqlDb) (rid : String) : Option PendingData × SqlDb :=
  match s.pendingRows.find? (fun r => r.1 == rid) with
  | none => (none, s)
  | some r => (some r.2, { s with pendingRows := removeFirstKey s.pendingRows rid })

/-- `InMemoryDB.pop_pending`: `self.pending.pop(report_id, None)`. -/
def popPendingMem (m : MemDb) (rid : String) : Option PendingData × MemDb :=
  match m.pending.find? (fun r => r.1 == rid) with
  | none => (none, m)
  | some r => (some r.2, { m with pending := removeFirstKey m.pending rid })

/-! ## Graph mirroring effects (`backend/app/graph.py`)

The graph writer talks to an external graph database; with no backend it
degrades to an error marker.  The pipeline's outward graph calls are
recorded as an effect trace. -/

structure EntityIn where
  etype : String
  code : Option String
  term : String
deriving DecidableEq, Repr

/-- A `{type, from, to}` relation; `fromTerm`/`toTerm` carry the `from`/`to`
keys. -/
structure RelationIn where
  rtype : String
  fromTerm : String
  toTerm : String
deriving DecidableEq, Repr

inductive GraphOp where
  | writeReport (r : ReportOut)
  | writeStructure (report_id : String) (entities : List EntityIn)
      (relations : List RelationIn)
deriving DecidableEq, Repr

/-! ## Application state wired by `backend/app/main.py` -/

structure AppState where
  reports : List RowM
  auditLog : List AuditEntry
  graphOps : List GraphOp
  sqlDb : SqlDb
deriving DecidableEq, Repr

/-- Python truthiness of `dup_id` (`None` and `""` are falsy). -/
def dupTruthy : Option String → Bool
  | none => false
  | some r => r ≠ ""

/-- `sanitized.get(k)` coerced as pydantic does for a required string
field. -/
def getStr (d : PyDict) (k : String) : String :=
  match dictGet d k with
  | .vstr s => s
  | _ => ""

def getOptStr (d : PyDict) (k : String) : Option String :=
  match dictGet d k with
  | .vstr s => some s
  | _ => none

def getOptList (d : PyDict) (k : String) : Option (List String) :=
  match dictGet d k with
  | .vlist xs => some xs
  | _ => none

/-- `sanitized.get("injury_severity") or "none"`. -/
def sevOrNone (v : Val) : String :=
  match v with
  | .vstr s => if s = "" then "none" else s
  | _ => "none"

/-- The `clean` dict after the `event_datetime`-defaulting step of
`_process_incoming` (`curTime` is the `datetime.now()` default). -/
def defaultedDict (p : ReportIn) (curTime : String) : PyDict :=
  let clean := reportInDict p
  if dictGet clean "event_datetime" = .vnone then
    dictSet clean "event_datetime" (.vstr curTime)
  else clean

/-- The fingerprint `_process_incoming` computes for a submission. -/
def submissionFingerprint (p : ReportIn) (curTime : String) : String :=
  fingerprint (defaultedDict p curTime)

/-- The report id minted by `_process_incoming`: the fingerprint hit when
one exists (and is truthy), else the fresh `uuid4()`. -/
def intakeReportId (freshId : String) (p : ReportIn) (curTime : String)
    (db : List RowM) : String :=
  let dupId := findByFingerprint db (submissionFingerprint p curTime)
  if dupTruthy dupId then dupId.getD "" else freshId

/-- The severity-resolution step of `_process_incoming`: keep the caller
value unless it is falsy/"none", in which case classify from the event
description and emit the `severity_evidence` audit entry. -/
def intakeSevAud (p : ReportIn) (curTime reportId : String) :
    String × List AuditEntry :=
  let sanitized := removePii (defaultedDict p curTime)
  let sev0 := sevOrNone (dictGet sanitized "injury_severity")
  if sev0 = "none" then
    let le := classifyWithEvidence (getStr sanitized "event_description")
    (le.1, [AuditEntry.mk reportId "severity_evidence"
              (some (severityDetailJson le.1 le.2))])
  else (sev0, [])

/-- The `ReportStored(...)` document built by `_process_incoming`. -/
def intakeStored (freshId nowT curTime : String) (p : ReportIn)
    (db : List RowM) : ReportStored :=
  let clean := defaultedDict p curTime
  let fp := fingerprint clean
  let dupId := findByFingerprint db fp
  let reportId := intakeReportId freshId p curTime db
  let sanitized := dictPop (removePii clean) "injury_severity"
  { report_id := reportId
    processed_at := nowT
    status := if dupTruthy dupId then "duplicate" else "received"
    fingerprint := fp
    source_version := "v0"
    injury_severity := (intakeSevAud p curTime reportId).1
    hospital_id := getStr sanitized "hospital_id"
    device_name := getStr sanitized "device_name"
    manufacturer := getOptStr sanitized "manufacturer"
    model := getOptStr sanitized "model"
    lot_sn := getOptStr sanitized "lot_sn"
    event_datetime := getStr sanitized "event_datetime"
    event_description := getStr sanitized "event_description"
    action_taken := getOptStr sanitized "action_taken"
    attachments := getOptList sanitized "attachments" }

/-- `_process_incoming(payload)` from `main.py`.  `freshId` is the
`uuid4()` drawn for a non-duplicate, `nowT` is `storage.now()`, `curTime`
is the `datetime.now()` default for an absent `event_datetime`. -/
def processIncoming (freshId nowT curTime : String) (p : ReportIn) (st : AppState) :
    ReportOut × AppState :=
  let stored := intakeStored freshId nowT curTime p st.reports
  let outDb := upsertReport stored st.reports
  let auditLog2 := st.auditLog ++ (intakeSevAud p curTime stored.report_id).2
    ++ [AuditEntry.mk stored.report_id "received" (some ("status=" ++ outDb.1.status))]
  (outDb.1,
   { st with reports := outDb.2, auditLog := auditLog2,
             graphOps := st.graphOps ++ [GraphOp.writeReport outDb.1] })

/-- Python `s.upper()` (ASCII). -/
def pyUpper (s : String) : String :=
  ⟨s.data.map Char.toUpper⟩

structure ConfirmResult where
  success : Bool
  error : Option String
  report_id : Option String
deriving DecidableEq, Repr

/-- `review_confirm` from `main.py`: pop the pending item (not-found returns
a failure body), re-run intake, then write graph structure from either the
caller-chosen LLM extraction (`llmEnts`/`llmRels` carry the external
provider's parsed entities/relations) or the stored heuristic structure. -/
def reviewConfirm (rid : String) (use_llm : Bool) (llmEnts : List EntityIn)
    (llmRels : List RelationIn) (freshId nowT curTime : String) (st : AppState) :
    ConfirmResult × AppState :=
  match popPendingSql st.sqlDb rid with
  | (none, sdb) =>
    (⟨false, some "not_found", none⟩, { st with sqlDb := sdb })
  | (some item, sdb) =>
    let st := { st with sqlDb := sdb }
    let outSt := processIncoming freshId nowT curTime item.base st
    let out := outSt.1
    let st := outSt.2
    if use_llm then
      (⟨true, none, some out.report_id⟩,
       { st with graphOps :=
          st.graphOps ++ [GraphOp.writeStructure out.report_id llmEnts llmRels] })
    else
      let sr := item.struc
      let ents0 := sr.matched_terms.map
        (fun t => EntityIn.mk (pyUpper t.field) (some t.code) t.term)
      let fms := sr.matched_terms.filter (fun t => t.field == "failure_mode")
      let inj := sr.matched_terms.filter (fun t => t.field == "health_impact")
      let rels :=
        match fms, inj with
        | f :: _, i :: _ => [RelationIn.mk "CAUSES" f.term i.term]
        | _, _ => []
      let ents := ents0
        ++ (if sr.failure_mode ≠ "" then [EntityIn.mk "FAILURE_MODE" none sr.failure_mode] else [])
        ++ (if sr.health_impact ≠ "" then [EntityIn.mk "INJURY" none sr.health_impact] else [])
        ++ (if sr.device_issue ≠ "" then [EntityIn.mk "DEVICE_ISSUE" none sr.device_issue] else [])
      (⟨true, none, some out.report_id⟩,
       { st with graphOps :=
          st.graphOps ++ [GraphOp.writeStructure out.report_id ents rels] })

/-! ## Concrete evaluation fixtures -/

def emptyAppState : AppState :=
  ⟨[], [], [], ⟨[], [], []⟩⟩

/-- A well-formed submission with `event_datetime` supplied. -/
def sampleSubmission : ReportIn :=
  { hospital_id := "HOSP-A"
    device_name := "Infusion Pump"
    event_description := "description one"
    event_datetime := some "2024-01-01T10:00:00"
    injury_severity := "mild" }

/-- The same submission identity with the hospital id in a different letter
case and a different description. -/
def sampleSubmissionCased : ReportIn :=
  { hospital_id := "hosp-a"
    device_name := "Infusion Pump"
    event_description := "description two"
    event_datetime := some "2024-01-01T10:00:00"
    injury_severity := "mild" }

/-- A submission differing from `sampleSubmission` in `device_name`. -/
def sampleSubmissionOtherDevice : ReportIn :=
  { hospital_id := "HOSP-A"
    device_name := "Ventilator"
    event_description := "description one"
    event_datetime := some "2024-01-01T10:00:00"
    injury_severity := "mild" }

def sampleRow : RowM :=
  { report_id := "rid-1"
    hospital_id := "HOSP-A"
    device_name := "Infusion Pump"
    manufacturer := some "ACME"
    model := some "IP-100"
    lot_sn := some "L-9"
    event_datetime := "2024-01-01T10:00:00"
    event_description := "description one"
    injury_severity := "mild"
    action_taken := some "replaced"
    attachments := none
    processed_at := "2024-01-02T00:00:00"
    status := "received"
    fingerprint := "fp-1"
    source_version := "v0" }

def sampleStoredUpdate : ReportStored :=
  { report_id := "rid-1"
    hospital_id := "OTHER-HOSP"
    device_name := "Other Device"
    manufacturer := none
    model := none
    lot_sn := none
    event_datetime := "2025-05-05T00:00:00"
    event_description := "resubmitted description"
    injury_severity := "severe"
    action_taken := none
    attachments := some ["a.png"]
    processed_at := "2025-05-06T00:00:00"
    status := "duplicate"
    fingerprint := "fp-other"
    source_version := "v0" }

def samplePending : PendingData :=
  { base := sampleSubmission
    struc := { matched_terms := [], failure_mode := "", health_impact := "",
               device_issue := "" }
    score := 1/4
    suggest_llm := true }

def sampleSqlDb : SqlDb :=
  ⟨[], [], [("other-id", samplePending)]⟩

def sampleMemDb : MemDb :=
  ⟨[], [], [], [("other-id", samplePending)]⟩

def sampleAppState : AppState :=
  { emptyAppState with sqlDb := sampleSqlDb }

/-- A raw payload dict whose identity fields need normalization. -/
def sampleDictU : PyDict :=
  [("hospital_id", .vstr " HOSP-A "),
   ("event_datetime", .vstr "2024-01-01 10:00:00"),
   ("device_name", .vstr "Infusion PUMP"),
   ("model", .vstr "M1"),
   ("lot_sn", .vstr "L1"),
   ("event_description", .vstr "first description"),
   ("action_taken", .vstr "none taken")]

/-- Same identity after normalization, different free text. -/
def sampleDictV : PyDict :=
  [("hospital_id", .vstr "hosp-a"),
   ("event_datetime", .vstr "2024-01-01 10:00:00"),
   ("device_name", .vstr "infusion pump"),
   ("model", .vstr "M1"),
   ("lot_sn", .vstr "L1"),
   ("event_description", .vstr "a completely different description"),
   ("action_taken", .vstr "observed"),
   ("patient_name", .vstr "someone")]

/-! ## Risk analysis (`backend/app/services/risk_analysis.py`)

Graph nodes and edges arrive as loosely typed dicts; an absent key is
modelled by the empty string, which decides every comparison in the module
identically to Python's `None`/`""` defaults (the `.get("severity",
"none")` reads map the absent marker to "none" via `getSeverityD`).
Float scores are rationals: `0.4 = 2/5`, `0.25 = 1/4`, `0.15 = 3/20`,
`0.2 = 1/5`, `0.5 = 1/2`, `0.7 = 7/10`. -/

structure GNode where
  id : String
  label : String
  severity : String
  name : String
  code : String
deriving DecidableEq, Repr

structure GEdge where
  source : String
  target : String
  label : String
deriving DecidableEq, Repr

structure GraphData where
  nodes : List GNode
  edges : List GEdge
deriving DecidableEq, Repr

/-- `severity_weights` of `RiskAnalyzer`. -/
def severityWeights : List (String × ℚ) :=
  [("death", 1), ("severe", 4/5), ("moderate", 1/2), ("mild", 1/5), ("none", 0)]

/-- `self.severity_weights.get(severity, 0)`. -/
def severityWeight (s : String) : ℚ :=
  (severityWeights.lookup s).getD 0

/-- `event.get("severity", "none")` under the empty-string absence marker. -/
def getSeverityD (n : GNode) : String :=
  if n.severity = "" then "none" else n.severity

/-- `_find_node_by_id` (the empty-dict miss is `none`). -/
def findNodeById (nid : String) (nodes : List GNode) : Option GNode :=
  nodes.find? (fun n => n.id == nid)

/-- `_get_related_devices`. -/
def getRelatedDevices (eventId : String) (nodes : List GNode) (edges : List GEdge) :
    List GNode :=
  edges.filterMap (fun e =>
    if e.source == eventId && (e.label == "RELATED_TO" || e.label == "HAS_FAULT") then
      match findNodeById e.target nodes with
      | some tn =>
        if tn.label == "MedicalDevice" || tn.label == "Device" then some tn else none
      | none => none
    else none)

/-- `_get_related_models`. -/
def getRelatedModels (eventId : String) (nodes : List GNode) (edges : List GEdge) :
    List GNode :=
  edges.filterMap (fun e =>
    if e.source == eventId && e.label == "HAS_MODEL" then
      match findNodeById e.target nodes with
      | some tn => if tn.label == "Model" then some tn else none
      | none => none
    else none)

/-- `_get_related_manufacturers`. -/
def getRelatedManufacturers (eventId : String) (nodes : List GNode)
    (edges : List GEdge) : List GNode :=
  edges.filterMap (fun e =>
    if e.source == eventId && e.label == "MANUFACTURED_BY" then
      match findNodeById e.target nodes with
      | some tn => if tn.label == "Manufacturer" then some tn else none
      | none => none
    else none)

/-- `_get_related_injuries`. -/
def getRelatedInjuries (eventId : String) (nodes : List GNode) (edges : List GEdge) :
    List GNode :=
  edges.filterMap (fun e =>
    if e.source == eventId && (e.label == "RESULTS_IN" || e.label == "HAS_INJURY") then
      match findNodeById e.target nodes with
      | some tn => if tn.label == "Harm" || tn.label == "Injury" then some tn else none
      | none => none
    else none)

/-- `defaultdict(list)` grouping in first-insertion order. -/
def addToGroup {α : Type} (groups : List (String × List α)) (k : String) (x : α) :
    List (String × List α) :=
  if groups.any (fun g => g.1 == k) then
    groups.map (fun g => if g.1 == k then (g.1, g.2 ++ [x]) else g)
  else groups ++ [(k, [x])]

/-- The severe/death report nodes collected by
`_analyze_high_severity_clusters`. -/
def severeEvents (nodes : List GNode) : List GNode :=
  nodes.filter (fun n =>
    n.label == "AdverseEventReport"
      && (n.severity == "severe" || n.severity == "death"))

/-- `device_severity_groups`. -/
def deviceSeverityGroups (nodes : List GNode) (edges : List GEdge) :
    List (String × List GNode) :=
  (severeEvents nodes).foldl
    (fun groups event =>
      (getRelatedDevices event.id nodes edges).foldl
        (fun gs device =>
          if device.name ≠ "" then addToGroup gs device.name event else gs)
        groups)
    []

inductive REvidence where
  | cluster (device_name : String) (event_count : ℕ) (severity_levels : List String)
      (recent_events : List GNode)
  | fault (fault_pattern : String) (occurrence_count : ℕ) (related_faults : List GNode)
  | modelRisk (model_name : String) (total_events : ℕ)
      (severity_distribution : List (String × ℕ)) (avg_severity_score : ℚ)
  | manufacturer (manufacturer_name : String) (total_events : ℕ) (avg_severity : ℚ)
      (high_severity_events : ℕ)
  | correlation (device_name injury_name : String) (correlation_frequency : ℕ)
      (avg_severity correlation_strength : ℚ)
deriving DecidableEq, Repr

structure RiskFinding where
  risk_type : String
  risk_level : String
  risk_score : ℚ
  description : String
  evidence : REvidence
  recommendation : String
deriving DecidableEq, Repr

/-- Two-decimal rendering of a rational score, standing in for Python's
`f"{x:.2f}"` applied to the corresponding float. -/
def fmt2 (x : ℚ) : String :=
  let c : Int := round (x * 100)
  let ip := c / 100
  let fp := (c % 100).natAbs
  toString ip ++ "." ++ (if fp < 10 then "0" else "") ++ toString fp

/-- `_analyze_high_severity_clusters`. -/
def clusterFindings (nodes : List GNode) (edges : List GEdge) : List RiskFinding :=
  (deviceSeverityGroups nodes edges).filterMap
    (fun g =>
      if 2 ≤ g.2.length then
        some
          { risk_type := "high_severity_cluster"
            risk_level := if 3 ≤ g.2.length then "high" else "medium"
            risk_score := min (g.2.length * (2/5 : ℚ)) 1
            description := "设备类型\x27" ++ g.1 ++ "\x27存在" ++ toString g.2.length
              ++ "个严重伤害事件"
            evidence := .cluster g.1 g.2.length (g.2.map (fun e => e.severity))
              (g.2.take 3)
            recommendation := "建议对" ++ g.1 ++ "进行重点监测和质量评估" }
      else none)

/-- The fault counter/detail grouping of `_analyze_fault_patterns`
(`Counter` iteration is in first-insertion order). -/
def faultGroups (nodes : List GNode) : List (String × List GNode) :=
  (nodes.filter (fun n => n.label == "Fault" || n.label == "FailureMode")).foldl
    (fun gs fault =>
      if fault.name ≠ "" || fault.code ≠ "" then
        addToGroup gs
          (if fault.code ≠ "" then fault.name ++ "(" ++ fault.code ++ ")"
           else fault.name)
          fault
      else gs)
    []

/-- `_analyze_fault_patterns`. -/
def faultFindings (nodes : List GNode) : List RiskFinding :=
  (faultGroups nodes).filterMap
    (fun g =>
      if 3 ≤ g.2.length then
        some
          { risk_type := "frequent_fault_pattern"
            risk_level := if 5 ≤ g.2.length then "high" else "medium"
            risk_score := min (g.2.length * (1/4 : ℚ)) 1
            description := "故障模式\x27" ++ g.1 ++ "\x27频繁出现，共"
              ++ toString g.2.length ++ "次"
            evidence := .fault g.1 g.2.length (g.2.take 3)
            recommendation := "建议分析" ++ g.1 ++ "的根本原因并制定预防措施" }
      else none)

/-- Report nodes grouped by related model name. -/
def modelGroups (nodes : List GNode) (edges : List GEdge) :
    List (String × List GNode) :=
  (nodes.filter (fun n => n.label == "AdverseEventReport")).foldl
    (fun gs event =>
      (getRelatedModels event.id nodes edges).foldl
        (fun gs2 m => if m.name ≠ "" then addToGroup gs2 m.name event else gs2)
        gs)
    []

/-- `severity_counts` (a `defaultdict(int)` in first-insertion order). -/
def severityDistribution (events : List GNode) : List (String × ℕ) :=
  events.foldl
    (fun dist e =>
      let k := getSeverityD e
      if dist.any (fun g => g.1 == k) then
        dist.map (fun g => if g.1 == k then (g.1, g.2 + 1) else g)
      else dist ++ [(k, 1)])
    []

/-- `_analyze_device_model_risks`. -/
def modelFindings (nodes : List GNode) (edges : List GEdge) : List RiskFinding :=
  (modelGroups nodes edges).filterMap
    (fun g =>
      if 1 ≤ g.2.length then
        let totalWeight : ℚ := (g.2.map (fun e => severityWeight (getSeverityD e))).sum
        let avg : ℚ := if g.2.isEmpty then 0 else totalWeight / g.2.length
        let score : ℚ := min (avg * (1 + g.2.length * (3/20 : ℚ))) 1
        if (1/5 : ℚ) ≤ score then
          some
            { risk_type := "device_model_risk"
              risk_level := if (1/2 : ℚ) < score then "high" else "medium"
              risk_score := score
              description := "设备型号\x27" ++ g.1 ++ "\x27风险评分" ++ fmt2 score
                ++ "，共" ++ toString g.2.length ++ "个事件"
              evidence := .modelRisk g.1 g.2.length (severityDistribution g.2) avg
              recommendation := "建议对" ++ g.1 ++ "型号设备进行重点检查或召回评估" }
        else none
      else none)

/-- Report nodes grouped by related manufacturer name. -/
def manufacturerGroups (nodes : List GNode) (edges : List GEdge) :
    List (String × List GNode) :=
  (nodes.filter (fun n => n.label == "AdverseEventReport")).foldl
    (fun gs event =>
      (getRelatedManufacturers event.id nodes edges).foldl
        (fun gs2 m => if m.name ≠ "" then addToGroup gs2 m.name event else gs2)
        gs)
    []

/-- `_analyze_manufacturer_risks`. -/
def manufacturerFindings (nodes : List GNode) (edges : List GEdge) :
    List RiskFinding :=
  (manufacturerGroups nodes edges).filterMap
    (fun g =>
      if 3 ≤ g.2.length then
        let scores := g.2.map (fun e => severityWeight (getSeverityD e))
        let avg : ℚ := if g.2.isEmpty then 0 else scores.sum / scores.length
        some
          { risk_type := "manufacturer_risk"
            risk_level := if 6 ≤ g.2.length then "high" else "medium"
            risk_score := min (avg * (g.2.length / 8 : ℚ)) 1
            description := "制造商\x27" ++ g.1 ++ "\x27聚集" ++ toString g.2.length
              ++ "个事件，平均严重度" ++ fmt2 avg
            evidence := .manufacturer g.1 g.2.length avg
              (g.2.filter (fun e => e.severity == "severe" || e.severity == "death")).length
            recommendation := "建议对" ++ g.1 ++ "的产品质量进行全面审查" }
      else none)

structure Occurrence where
  event : GNode
  injury : GNode
  device : GNode
deriving DecidableEq, Repr

/-- `injury_device_pairs`, keyed by the `f"{device}→{injury}"` string. -/
def injuryDevicePairs (nodes : List GNode) (edges : List GEdge) :
    List (String × List Occurrence) :=
  (nodes.filter (fun n => n.label == "AdverseEventReport")).foldl
    (fun gs event =>
      (getRelatedInjuries event.id nodes edges).foldl
        (fun gs2 injury =>
          (getRelatedDevices event.id nodes edges).foldl
            (fun gs3 device =>
              if injury.name ≠ "" && device.name ≠ "" then
                addToGroup gs3 (device.name ++ "→" ++ injury.name)
                  ⟨event, injury, device⟩
              else gs3)
            gs2)
        gs)
    []

/-- `_analyze_injury_device_correlation`.  The two-variable unpacking
`device_name, injury_name = pair_key.split("→")` raises `ValueError` when a
node name itself contains "→"; that is the one genuinely fallible statement
of the analyzer and is carried in `Except`. -/
def correlationFindings (nodes : List GNode) (edges : List GEdge) :
    Except String (List RiskFinding) :=
  (injuryDevicePairs nodes edges).foldl
    (fun acc g => do
      let risks ← acc
      if 2 ≤ g.2.length then
        match g.1.splitOn "→" with
        | [device_name, injury_name] =>
          let scores := g.2.map (fun o => severityWeight (getSeverityD o.event))
          let avg : ℚ := if scores.isEmpty then 0 else scores.sum / scores.length
          let strength : ℚ := min (avg * (g.2.length / 3 : ℚ)) 1
          if (1/2 : ℚ) ≤ strength then
            pure (risks ++
              [{ risk_type := "injury_device_correlation"
                 risk_level := if (7/10 : ℚ) < strength then "high" else "medium"
                 risk_score := strength
                 description := "设备\x27" ++ device_name ++ "\x27与伤害\x27"
                   ++ injury_name ++ "\x27存在强关联（强度" ++ fmt2 strength ++ "）"
                 evidence := .correlation device_name injury_name g.2.length avg
                   strength
                 recommendation := "建议重点关注" ++ device_name ++ "设备导致"
                   ++ injury_name ++ "伤害的机制研究" }])
          else pure risks
        | parts =>
          throw (if parts.length < 2 then
                   "not enough values to unpack (expected 2, got "
                     ++ toString parts.length ++ ")"
                 else "too many values to unpack (expected 2)")
      else pure risks)
    (Except.ok [])

structure RiskResult where
  total_risks : ℕ
  high_risks : ℕ
  medium_risks : ℕ
  low_risks : ℕ
  risk_details : List RiskFinding
  message : Option String
  error : Option String
deriving DecidableEq, Repr

/-- `risks.sort(key=..., reverse=True)` (stable, descending by score). -/
def riskSort (l : List RiskFinding) : List RiskFinding :=
  l.insertionSort (fun a b => b.risk_score ≤ a.risk_score)

/-- `RiskAnalyzer.analyze_graph_data`: the five rules concatenated, sorted
by score descending, counted by level, top-10 returned. -/
def analyzeGraphData (nodes : List GNode) (edges : List GEdge) :
    Except String RiskResult := do
  let corr ← correlationFindings nodes edges
  let risks := riskSort
    (clusterFindings nodes edges ++ faultFindings nodes ++ modelFindings nodes edges
      ++ manufacturerFindings nodes edges ++ corr)
  pure
    { total_risks := risks.length
      high_risks := (risks.filter (fun r => r.risk_level == "high")).length
      medium_risks := (risks.filter (fun r => r.risk_level == "medium")).length
      low_risks := (risks.filter (fun r => r.risk_level == "low")).length
      risk_details := risks.take 10
      message := none
      error := none }

/-- `analyze_risks_in_graph(graph_data)`: the public entry point — empty
nodes or edges short-circuit to a zero result with an explanatory message,
and any exception of the analyzer body is converted to a zero result
carrying the error text; the function itself is total. -/
def analyzeRisksInGraph (gd : GraphData) : RiskResult :=
  if gd.nodes.isEmpty || gd.edges.isEmpty then
    { total_risks := 0, high_risks := 0, medium_risks := 0, low_risks := 0,
      risk_details := [], message := some "图数据为空，无法进行风险分析",
      error := none }
  else
    match analyzeGraphData gd.nodes gd.edges with
    | .ok r => r
    | .error e =>
      { total_risks := 0, high_risks := 0, medium_risks := 0, low_risks := 0,
        risk_details := [], message := none,
        error := some ("风险分析过程中出现错误: " ++ e) }

/-- One device linked to three severe report nodes. -/
def clusterGraph : GraphData :=
  ⟨[⟨"d1", "Device", "", "PumpX", ""⟩,
    ⟨"r1", "AdverseEventReport", "severe", "", ""⟩,
    ⟨"r2", "AdverseEventReport", "severe", "", ""⟩,
    ⟨"r3", "AdverseEventReport", "severe", "", ""⟩],
   [⟨"r1", "d1", "RELATED_TO"⟩, ⟨"r2", "d1", "RELATED_TO"⟩,
    ⟨"r3", "d1", "RELATED_TO"⟩]⟩

/-! ## Terminology search engine (`backend/app/terminology.py`)

Corpus loading, jieba segmentation, TF-IDF vectors and the lexical/alias
scorer operate over an external corpus and floating-point numpy arrays; the
per-term score is therefore abstracted as an arbitrary rational-valued
scoring environment `scoreOf` (normalized text → category → term → score),
exactly the shape in which `search` consumes it.  What is verified here is
the post-processing every category result goes through: score every loaded
term, drop scores below the threshold, sort descending by score (Python's
stable sort), return the first `top_k` pairs. -/

structure Term where
  code : String
  term : String
  definition : String
  category : String
  hierarchy : String
deriving DecidableEq, Repr

/-- `_normalize_text`: full-width comma/period → ASCII, a space before "/",
the enumeration comma → space, trim, lowercase. -/
def normalizeText (s : String) : String :=
  let s1 := s.data.map (fun c => if c = '，' then ',' else c)
  let s2 := s1.map (fun c => if c = '。' then '.' else c)
  let s3 := s2.foldr (fun c acc => if c = '/' then ' ' :: '/' :: acc else c :: acc) []
  let s4 := s3.map (fun c => if c = '、' then ' ' else c)
  pyLower (pyStrip ⟨s4⟩)

/-- The per-category body of `search`: score, filter by threshold, sort
descending, truncate to `top_k`. -/
def searchCategory (scoreOf : Term → ℚ) (items : List Term) (top_k : ℕ)
    (threshold : ℚ) : List (Term × ℚ) :=
  let scored := items.map (fun t => (t, scoreOf t))
  let kept := scored.filter (fun x => threshold ≤ x.2)
  let sorted := kept.insertionSort (fun a b => b.2 ≤ a.2)
  sorted.take top_k

instance : IsTotal (Term × ℚ) (fun a b => b.2 ≤ a.2) :=
  ⟨fun a b => le_total b.2 a.2⟩

instance : IsTrans (Term × ℚ) (fun a b => b.2 ≤ a.2) :=
  ⟨fun _ _ _ h1 h2 => le_trans h2 h1⟩

/-- `search(text, categories, top_k, threshold)`: one result list per
requested category, over the loaded `_TERMS` table. -/
def search (scoreOf : String → String → Term → ℚ) (terms : List (String × List Term))
    (text : String) (categories : List String) (top_k : ℕ) (threshold : ℚ) :
    List (String × List (Term × ℚ)) :=
  categories.map (fun c =>
    (c, searchCategory (scoreOf (normalizeText text) c) ((terms.lookup c).getD [])
          top_k threshold))

/-! ## Structure analyzer confidence
(`backend/app/services/structure_analyzer.py::_calculate_confidence`) -/

/-- The placeholder strings checked by `_match_standard_terms` and
`_calculate_confidence`. -/
def PLACEHOLDERS : List String :=
  ["未知故障模式", "临床表现未明确", "健康影响未明确", "处置措施未明确", "功能异常"]

/-- The `extracted_data` dict handed to `_calculate_confidence` (Python
dict insertion order: device_issue, failure_mode, clinical_manifestation,
health_impact, treatment_action). -/
structure ExtractedData where
  device_issue : String
  failure_mode : String
  clinical_manifestation : String
  health_impact : String
  treatment_action : String
deriving DecidableEq, Repr

structure ConfidenceBreakdown where
  device_issue : ℚ
  failure_mode : ℚ
  clinical_manifestation : ℚ
  health_impact : ℚ
  treatment_action : ℚ
deriving DecidableEq, Repr

/-- One loop step of `_calculate_confidence` for a non-treatment field:
the per-field breakdown entry, paired with the field's contribution to
`confident_fields` (placeholder → 0.2 and 0; matched → 0.6 + 0.4·avg and 1;
unmatched → 0.5 and 0.5). -/
def fieldConfidence (value field : String) (matched : List MatchedTerm) : ℚ × ℚ :=
  if value ∈ PLACEHOLDERS then (1/5, 0)
  else
    let fieldTerms := matched.filter (fun t => t.field == field)
    if fieldTerms.isEmpty then (1/2, 1/2)
    else
      ((3/5 : ℚ)
         + ((fieldTerms.map (fun t => t.similarity)).sum / fieldTerms.length) * (2/5),
       1)

structure ConfidenceResult where
  overall : ℚ
  breakdown : ConfidenceBreakdown
deriving DecidableEq, Repr

/-- `StructureAnalyzer._calculate_confidence`: treatment_action is fixed at
confidence 1.0 and excluded from the count; `total_fields = 5 - 1 = 4`; the
overall confidence is `confident_fields / 4` (the `if total_fields > 0`
guard is vacuously true for the fixed five-key dict). -/
def calculateConfidence (ed : ExtractedData) (matched : List MatchedTerm) :
    ConfidenceResult :=
  let di := fieldConfidence ed.device_issue "device_issue" matched
  let fm := fieldConfidence ed.failure_mode "failure_mode" matched
  let cm := fieldConfidence ed.clinical_manifestation "clinical_manifestation" matched
  let hi := fieldConfidence ed.health_impact "health_impact" matched
  { overall := (di.2 + fm.2 + cm.2 + hi.2) / 4
    breakdown := ⟨di.1, fm.1, cm.1, hi.1, 1⟩ }

/-- An extraction in which all four auto-extracted fields carry placeholder
values. -/
def edAllPlaceholders : ExtractedData :=
  ⟨"未知故障模式", "未知故障模式", "临床表现未明确", "健康影响未明确", "处置措施未明确"⟩

def termA1 : Term := ⟨"A01", "屏幕故障", "", "A", ""⟩

def termA2 : Term := ⟨"A02", "电源故障", "", "A", ""⟩

/-- A concrete scoring environment for exercising the search pipeline. -/
def scoreFixture : String → String → Term → ℚ :=
  fun _ _ t => if t.code = "A02" then mkRat 3 5 else mkRat 1 2

def termsFixture : List (String × List Term) := [("A", [termA1, termA2])]

/-! ## DEFS-CONTINUE -/

/-! # Theorems -/

/-- C4: `classify` returns the level of the first of the five fixed keyword
sets (priority order death, severe, moderate, mild, none) with a substring
match in the lowercased text; if none match, the secondary sets decide
"severe" then "moderate", else the default is "none"; in particular a text
containing both a death keyword and a mild keyword classifies as "death". -/
theorem C4_classify_priority (text : String) :
    (anyKw DEATH (pyLower text) = true → classify text = "death")
    ∧ (anyKw DEATH (pyLower text) = false → anyKw SEVERE (pyLower text) = true →
        classify text = "severe")
    ∧ (anyKw DEATH (pyLower text) = false → anyKw SEVERE (pyLower text) = false →
        anyKw MODERATE (pyLower text) = true → classify text = "moderate")
    ∧ (anyKw DEATH (pyLower text) = false → anyKw SEVERE (pyLower text) = false →
        anyKw MODERATE (pyLower text) = false → anyKw MILD (pyLower text) = true →
        classify text = "mild")
    ∧ (anyKw DEATH (pyLower text) = false → anyKw SEVERE (pyLower text) = false →
        anyKw MODERATE (pyLower text) = false → anyKw MILD (pyLower text) = false →
        anyKw NONE_KWS (pyLower text) = true → classify text = "none")
    ∧ (anyKw DEATH (pyLower text) = false → anyKw SEVERE (pyLower text) = false →
        anyKw MODERATE (pyLower text) = false → anyKw MILD (pyLower text) = false →
        anyKw NONE_KWS (pyLower text) = false → anyKw RISK_SEVERE (pyLower text) = true →
        classify text = "severe")
    ∧ (anyKw DEATH (pyLower text) = false → anyKw SEVERE (pyLower text) = false →
        anyKw MODERATE (pyLower text) = false → anyKw MILD (pyLower text) = false →
        anyKw NONE_KWS (pyLower text) = false → anyKw RISK_SEVERE (pyLower text) = false →
        anyKw RISK_MODERATE (pyLower text) = true → classify text = "moderate")
    ∧ (anyKw DEATH (pyLower text) = false → anyKw SEVERE (pyLower text) = false →
        anyKw MODERATE (pyLower text) = false → anyKw MILD (pyLower text) = false →
        anyKw NONE_KWS (pyLower text) = false → anyKw RISK_SEVERE (pyLower text) = false →
        anyKw RISK_MODERATE (pyLower text) = false → classify text = "none")
    ∧ (anyKw DEATH (pyLower text) = true → anyKw MILD (pyLower text) = true →
        classify text = "death") := by
  unfold classify
  refine ⟨?_, ?_, ?_, ?_, ?_, ?_, ?_, ?_, ?_⟩ <;> intros <;> simp_all

/-- C4 witness: a text containing the death keyword "死亡" and the mild
keyword "轻微" classifies as "death". -/
theorem C4_classify_priority_witness :
    classify "设备故障导致患者死亡，伴轻微红肿" = "death" :=
  (C4_classify_priority "设备故障导致患者死亡，伴轻微红肿").2.2.2.2.2.2.2.2
    (by decide) (by decide)

/-! ### Store helper lemmas -/

theorem refreshStatusRow_head_pos {r : RowM} {rest : List RowM} {rid s pa : String}
    (h : (r.report_id == rid) = true) :
    refreshStatusRow (r :: rest) rid s pa
      = { r with status := s, processed_at := pa } :: rest := by
  simp [refreshStatusRow, h]

theorem refreshStatusRow_head_neg {r : RowM} {rest : List RowM} {rid s pa : String}
    (h : (r.report_id == rid) = false) :
    refreshStatusRow (r :: rest) rid s pa = r :: refreshStatusRow rest rid s pa := by
  simp [refreshStatusRow, h]

theorem findByFingerprint_refresh (db : List RowM) (rid s pa fp : String) :
    findByFingerprint (refreshStatusRow db rid s pa) fp = findByFingerprint db fp := by
  induction db with
  | nil => rfl
  | cons r rest ih =>
    by_cases h : (r.report_id == rid) = true
    · rw [refreshStatusRow_head_pos h]
      by_cases h2 : (r.fingerprint == fp) = true
      · simp [findByFingerprint, List.find?_cons_of_pos, h2]
      · simp only [findByFingerprint] at *
        rw [List.find?_cons_of_neg _ (by simpa using h2),
            List.find?_cons_of_neg _ (by simpa using h2)]
    · rw [refreshStatusRow_head_neg (by simpa using h)]
      by_cases h2 : (r.fingerprint == fp) = true
      · simp [findByFingerprint, List.find?_cons_of_pos, h2]
      · simp only [findByFingerprint] at *
        rw [List.find?_cons_of_neg _ (by simpa using h2),
            List.find?_cons_of_neg _ (by simpa using h2)]
        exact ih

theorem dbGetRow_refresh_self {db : List RowM} {rid : String} {r : RowM} (s pa : String)
    (h : dbGetRow db rid = some r) :
    dbGetRow (refreshStatusRow db rid s pa) rid
      = some { r with status := s, processed_at := pa } := by
  induction db with
  | nil => simp [dbGetRow] at h
  | cons a rest ih =>
    by_cases ha : (a.report_id == rid) = true
    · rw [refreshStatusRow_head_pos ha]
      have hr : a = r := by
        simpa [dbGetRow, List.find?_cons_of_pos, ha] using h
      subst hr
      simp [dbGetRow, List.find?_cons_of_pos, ha]
    · rw [refreshStatusRow_head_neg (by simpa using ha)]
      have h' : dbGetRow rest rid = some r := by
        simpa [dbGetRow, List.find?_cons_of_neg, ha] using h
      simpa [dbGetRow, List.find?_cons_of_neg, ha] using ih h'

theorem dbGetRow_refresh_ne {db : List RowM} {rid rid2 : String} (s pa : String)
    (h : rid2 ≠ rid) :
    dbGetRow (refreshStatusRow db rid s pa) rid2 = dbGetRow db rid2 := by
  induction db with
  | nil => rfl
  | cons a rest ih =>
    by_cases ha : (a.report_id == rid) = true
    · rw [refreshStatusRow_head_pos ha]
      have hane : (a.report_id == rid2) = false := by
        have h1 : a.report_id = rid := by simpa using ha
        simp only [h1, beq_eq_false_iff_ne, ne_eq]
        exact fun hc => h hc.symm
      simp [dbGetRow, List.find?_cons_of_neg, hane]
    · rw [refreshStatusRow_head_neg (by simpa using ha)]
      by_cases hb : (a.report_id == rid2) = true
      · simp [dbGetRow, List.find?_cons_of_pos, hb]
      · simp only [dbGetRow] at *
        rw [List.find?_cons_of_neg _ (by simpa using hb),
            List.find?_cons_of_neg _ (by simpa using hb)]
        exact ih

theorem refreshStatusRow_length (db : List RowM) (rid s pa : String) :
    (refreshStatusRow db rid s pa).length = db.length := by
  induction db with
  | nil => rfl
  | cons a rest ih =>
    by_cases ha : (a.report_id == rid) = true
    · rw [refreshStatusRow_head_pos ha]; simp
    · rw [refreshStatusRow_head_neg (by simpa using ha)]; simp [ih]

theorem findByFingerprint_append_none {db : List RowM} {fp : String} (row : RowM)
    (h : findByFingerprint db fp = none) :
    findByFingerprint (db ++ [row]) fp
      = if (row.fingerprint == fp) = true then some row.report_id else none := by
  induction db with
  | nil =>
    by_cases hr : (row.fingerprint == fp) = true
    · simp [findByFingerprint, List.find?_cons_of_pos, hr]
    · simp [findByFingerprint, List.find?_cons_of_neg, hr]
  | cons a rest ih =>
    have ha : (a.fingerprint == fp) = false := by
      by_contra hc
      simp [findByFingerprint, List.find?_cons_of_pos,
            (by simpa using hc : (a.fingerprint == fp) = true)] at h
    have h' : findByFingerprint rest fp = none := by
      simpa [findByFingerprint, List.find?_cons_of_neg, ha] using h
    simp only [List.cons_append, findByFingerprint] at *
    rw [List.find?_cons_of_neg _ (by simpa using ha)]
    exact ih h'

theorem dbGetRow_append_of_none {db : List RowM} {rid : String} (row : RowM)
    (h : dbGetRow db rid = none) :
    dbGetRow (db ++ [row]) rid
      = if (row.report_id == rid) = true then some row else none := by
  induction db with
  | nil =>
    by_cases hr : (row.report_id == rid) = true
    · simp [dbGetRow, List.find?_cons_of_pos, hr]
    · simp [dbGetRow, List.find?_cons_of_neg, hr]
  | cons a rest ih =>
    have ha : (a.report_id == rid) = false := by
      by_contra hc
      simp [dbGetRow, List.find?_cons_of_pos,
            (by simpa using hc : (a.report_id == rid) = true)] at h
    have h' : dbGetRow rest rid = none := by
      simpa [dbGetRow, List.find?_cons_of_neg, ha] using h
    simp only [List.cons_append, dbGetRow] at *
    rw [List.find?_cons_of_neg _ (by simpa using ha)]
    exact ih h'

theorem dbGetRow_isSome_of_fbf {db : List RowM} {fp r : String}
    (h : findByFingerprint db fp = some r) : (dbGetRow db r).isSome := by
  unfold findByFingerprint at h
  rcases hf : db.find? (fun x => x.fingerprint == fp) with _ | row
  · rw [hf] at h; cases h
  · rw [hf] at h
    have hid : row.report_id = r := by simpa using h
    have hmem := List.mem_of_find?_eq_some hf
    exact List.find?_isSome.mpr ⟨row, hmem, by simp [hid]⟩

theorem upsertReport_fst (stored : ReportStored) (db : List RowM) :
    (upsertReport stored db).1 = projOut stored := by
  unfold upsertReport
  rcases dbGetRow db stored.report_id with _ | r <;> rfl

theorem upsertReport_snd_none {stored : ReportStored} {db : List RowM}
    (h : dbGetRow db stored.report_id = none) :
    (upsertReport stored db).2 = db ++ [rowOfStored stored] := by
  unfold upsertReport
  rw [h]

theorem upsertReport_snd_some {stored : ReportStored} {db : List RowM} {r : RowM}
    (h : dbGetRow db stored.report_id = some r) :
    (upsertReport stored db).2
      = refreshStatusRow db stored.report_id stored.status stored.processed_at := by
  unfold upsertReport
  rw [h]

/-- C9: when `upsert_report` hits a report id that is already persisted,
only the stored row's `status` and `processed_at` are refreshed — every
other column of that row, and every other row, is unchanged — and the
public projection of the new document is returned. -/
theorem C9_upsert_refreshes_only_status (stored : ReportStored) (db : List RowM)
    (r : RowM) (h : dbGetRow db stored.report_id = some r) :
    dbGetRow (upsertReport stored db).2 stored.report_id
        = some { r with status := stored.status, processed_at := stored.processed_at }
    ∧ (∀ rid, rid ≠ stored.report_id →
        dbGetRow (upsertReport stored db).2 rid = dbGetRow db rid)
    ∧ (upsertReport stored db).2.length = db.length
    ∧ (upsertReport stored db).1 = projOut stored := by
  refine ⟨?_, ?_, ?_, upsertReport_fst _ _⟩
  · rw [upsertReport_snd_some h]
    exact dbGetRow_refresh_self _ _ h
  · intro rid hne
    rw [upsertReport_snd_some h]
    exact dbGetRow_refresh_ne _ _ hne
  · rw [upsertReport_snd_some h]
    exact refreshStatusRow_length _ _ _ _

/-- C9 witness: a concrete duplicate re-submission over a one-row store. -/
theorem C9_upsert_refreshes_only_status_witness :
    dbGetRow (upsertReport sampleStoredUpdate [sampleRow]).2 sampleStoredUpdate.report_id
        = some { sampleRow with status := sampleStoredUpdate.status,
                                processed_at := sampleStoredUpdate.processed_at }
    ∧ (upsertReport sampleStoredUpdate [sampleRow]).2.length = [sampleRow].length := by
  have h := C9_upsert_refreshes_only_status sampleStoredUpdate [sampleRow] sampleRow rfl
  exact ⟨h.1, h.2.2.1⟩

/-- C10: for a report id absent from the pending-review queue, `pop_pending`
returns no item and leaves the whole store unchanged, in both the relational
and the in-memory backend, and `review_confirm` then answers a `not_found`
failure with the entire application state (reports, audit log, graph
effects, pending queue) unchanged. -/
theorem C10_pop_pending_not_found (rid : String) (sdb : SqlDb) (mdb : MemDb)
    (st : AppState)
    (hs : ∀ kv ∈ sdb.pendingRows, kv.1 ≠ rid)
    (hm : ∀ kv ∈ mdb.pending, kv.1 ≠ rid)
    (ha : ∀ kv ∈ st.sqlDb.pendingRows, kv.1 ≠ rid) :
    popPendingSql sdb rid = (none, sdb)
    ∧ popPendingMem mdb rid = (none, mdb)
    ∧ ∀ (use_llm : Bool) (ents : List EntityIn) (rels : List RelationIn)
        (idf nt ct : String),
        reviewConfirm rid use_llm ents rels idf nt ct st
          = (⟨false, some "not_found", none⟩, st) := by
  have hfs : sdb.pendingRows.find? (fun r => r.1 == rid) = none :=
    List.find?_eq_none.mpr (fun kv hkv => by simp [hs kv hkv])
  have hfm : mdb.pending.find? (fun r => r.1 == rid) = none :=
    List.find?_eq_none.mpr (fun kv hkv => by simp [hm kv hkv])
  have hfa : st.sqlDb.pendingRows.find? (fun r => r.1 == rid) = none :=
    List.find?_eq_none.mpr (fun kv hkv => by simp [ha kv hkv])
  refine ⟨?_, ?_, ?_⟩
  · unfold popPendingSql
    rw [hfs]
  · unfold popPendingMem
    rw [hfm]
  · intro use_llm ents rels idf nt ct
    have hp : popPendingSql st.sqlDb rid = (none, st.sqlDb) := by
      unfold popPendingSql
      rw [hfa]
    unfold reviewConfirm
    rw [hp]

/-- C10 witness: a concrete id absent from a one-item pending queue. -/
theorem C10_pop_pending_not_found_witness :
    popPendingSql sampleSqlDb "missing-id" = (none, sampleSqlDb)
    ∧ popPendingMem sampleMemDb "missing-id" = (none, sampleMemDb)
    ∧ reviewConfirm "missing-id" false [] [] "f" "n" "c" sampleAppState
        = (⟨false, some "not_found", none⟩, sampleAppState) := by
  have h := C10_pop_pending_not_found "missing-id" sampleSqlDb sampleMemDb sampleAppState
    (by decide) (by decide) (by decide)
  exact ⟨h.1, h.2.1, h.2.2 false [] [] "f" "n" "c"⟩

/-- C2: two payload dicts agreeing on the five normalized identity fields
(hospital_id, event_datetime, device_name, model, lot_sn — trim, lowercase,
absent mapped to the empty string) produce the identical fingerprint, and
that fingerprint is the SHA-256 hex digest of the pipe-joined normalized
values in that fixed order; any other entries — in particular
event_description and action_taken — are irrelevant. -/
theorem C2_fingerprint_stability (u v : PyDict)
    (h1 : normalizeVal (dictGet u "hospital_id") = normalizeVal (dictGet v "hospital_id"))
    (h2 : normalizeVal (dictGet u "event_datetime")
          = normalizeVal (dictGet v "event_datetime"))
    (h3 : normalizeVal (dictGet u "device_name") = normalizeVal (dictGet v "device_name"))
    (h4 : normalizeVal (dictGet u "model") = normalizeVal (dictGet v "model"))
    (h5 : normalizeVal (dictGet u "lot_sn") = normalizeVal (dictGet v "lot_sn")) :
    fingerprint u = fingerprint v
    ∧ fingerprint u = sha256HexOfString (pipeJoin
        [normalizeVal (dictGet u "hospital_id"),
         normalizeVal (dictGet u "event_datetime"),
         normalizeVal (dictGet u "device_name"),
         normalizeVal (dictGet u "model"),
         normalizeVal (dictGet u "lot_sn")]) := by
  constructor
  · unfold fingerprint fingerprintBase
    rw [h1, h2, h3, h4, h5]
  · rfl

/-- C2 witness: concrete payloads agreeing on the normalized identity but
differing in description, action and letter case hash identically. -/
theorem C2_fingerprint_stability_witness :
    fingerprint sampleDictU = fingerprint sampleDictV :=
  (C2_fingerprint_stability sampleDictU sampleDictV
    (by decide) (by decide) (by decide) (by decide) (by decide)).1

/-! ### Intake pipeline helper lemmas -/

theorem processIncoming_fst (id nt ct : String) (p : ReportIn) (st : AppState) :
    (processIncoming id nt ct p st).1
      = projOut (intakeStored id nt ct p st.reports) :=
  upsertReport_fst (intakeStored id nt ct p st.reports) st.reports

theorem processIncoming_reports (id nt ct : String) (p : ReportIn) (st : AppState) :
    (processIncoming id nt ct p st).2.reports
      = (upsertReport (intakeStored id nt ct p st.reports) st.reports).2 := rfl

theorem intakeStored_report_id (id nt ct : String) (p : ReportIn) (db : List RowM) :
    (intakeStored id nt ct p db).report_id = intakeReportId id p ct db := rfl

theorem intakeStored_status (id nt ct : String) (p : ReportIn) (db : List RowM) :
    (intakeStored id nt ct p db).status
      = if dupTruthy (findByFingerprint db (submissionFingerprint p ct)) then "duplicate"
        else "received" := rfl

theorem intakeStored_fp (id nt ct : String) (p : ReportIn) (db : List RowM) :
    (intakeStored id nt ct p db).fingerprint = submissionFingerprint p ct := rfl

theorem projOut_report_id (s : ReportStored) : (projOut s).report_id = s.report_id := rfl

theorem projOut_status (s : ReportStored) : (projOut s).status = s.status := rfl

theorem dupTruthy_true_iff (o : Option String) :
    dupTruthy o = true ↔ ∃ r, o = some r ∧ r ≠ "" := by
  cases o <;> simp [dupTruthy]

theorem defaultedDict_of_some {p : ReportIn} {dt : String}
    (h : p.event_datetime = some dt) (ct : String) :
    defaultedDict p ct = reportInDict p := by
  have hg : dictGet (reportInDict p) "event_datetime" = optVal p.event_datetime := rfl
  simp only [defaultedDict]
  rw [hg, h]
  simp [optVal]

theorem strAppend_cancel_right {a b s : String} (h : a ++ s = b ++ s) : a = b := by
  apply String.ext
  have h2 := congrArg String.data h
  simp only [String.data_append] at h2
  exact List.append_cancel_right h2

theorem strAppend_cancel_left {p a b : String} (h : p ++ a = p ++ b) : a = b := by
  apply String.ext
  have h2 := congrArg String.data h
  simp only [String.data_append] at h2
  exact List.append_cancel_left h2

theorem fingerprintBase_expand (d : PyDict) :
    fingerprintBase d
      = normalizeVal (dictGet d "hospital_id") ++ "|"
        ++ (normalizeVal (dictGet d "event_datetime") ++ "|"
        ++ (normalizeVal (dictGet d "device_name") ++ "|"
        ++ (normalizeVal (dictGet d "model") ++ "|"
        ++ normalizeVal (dictGet d "lot_sn")))) := rfl

/-- The second submission sees the first one's fingerprint row: after any
first intake with a fresh nonempty id over a store of nonempty ids, the
fingerprint of the first submission resolves to the first output's id. -/
theorem run1_fbf (p : ReportIn) (st : AppState) (id1 nt1 ct1 : String)
    (hid1 : id1 ≠ "")
    (hid1new : dbGetRow st.reports id1 = none)
    (hwf : ∀ r ∈ st.reports, r.report_id ≠ "") :
    findByFingerprint (processIncoming id1 nt1 ct1 p st).2.reports
        (submissionFingerprint p ct1)
      = some (processIncoming id1 nt1 ct1 p st).1.report_id
    ∧ (processIncoming id1 nt1 ct1 p st).1.report_id ≠ "" := by
  rw [processIncoming_fst, processIncoming_reports, projOut_report_id,
      intakeStored_report_id]
  rcases hdup : findByFingerprint st.reports (submissionFingerprint p ct1) with _ | r
  · have hrid : intakeReportId id1 p ct1 st.reports = id1 := by
      simp [intakeReportId, hdup, dupTruthy]
    have hgr : dbGetRow st.reports (intakeStored id1 nt1 ct1 p st.reports).report_id
        = none := by
      rw [intakeStored_report_id, hrid]
      exact hid1new
    rw [upsertReport_snd_none hgr, hrid]
    refine ⟨?_, hid1⟩
    rw [findByFingerprint_append_none _ hdup]
    have e1 : (rowOfStored (intakeStored id1 nt1 ct1 p st.reports)).fingerprint
        = submissionFingerprint p ct1 := rfl
    have e2 : (rowOfStored (intakeStored id1 nt1 ct1 p st.reports)).report_id = id1 := by
      show (intakeStored id1 nt1 ct1 p st.reports).report_id = id1
      rw [intakeStored_report_id, hrid]
    rw [e1, e2]
    simp
  · have hr : r ≠ "" := by
      intro h0
      subst h0
      unfold findByFingerprint at hdup
      rcases hf : st.reports.find?
          (fun x => x.fingerprint == submissionFingerprint p ct1) with _ | row
      · rw [hf] at hdup
        cases hdup
      · rw [hf] at hdup
        have hrow : row.report_id = "" := by simpa using hdup
        exact hwf row (List.mem_of_find?_eq_some hf) hrow
    have hrid : intakeReportId id1 p ct1 st.reports = r := by
      simp [intakeReportId, hdup, dupTruthy, hr]
    rw [hrid]
    have hsome := dbGetRow_isSome_of_fbf hdup
    rcases hrow : dbGetRow st.reports r with _ | row0
    · rw [hrow] at hsome
      cases hsome
    · have hgr : dbGetRow st.reports (intakeStored id1 nt1 ct1 p st.reports).report_id
          = some row0 := by
        rw [intakeStored_report_id, hrid]
        exact hrow
      rw [upsertReport_snd_some hgr, findByFingerprint_refresh]
      exact ⟨hdup, hr⟩

/-- A submission whose fingerprint resolves to a stored nonempty id reuses
that id with status "duplicate". -/
theorem run_duplicate (q : ReportIn) (st : AppState) (id nt ct rid : String)
    (h : findByFingerprint st.reports (submissionFingerprint q ct) = some rid)
    (hrne : rid ≠ "") :
    (processIncoming id nt ct q st).1.report_id = rid
    ∧ (processIncoming id nt ct q st).1.status = "duplicate" := by
  constructor
  · rw [processIncoming_fst, projOut_report_id, intakeStored_report_id]
    simp [intakeReportId, h, dupTruthy, hrne]
  · rw [processIncoming_fst, projOut_status, intakeStored_status]
    simp [h, dupTruthy, hrne]

/-- A submission whose fingerprint has no stored hit mints the fresh id with
status "received". -/
theorem run_received (q : ReportIn) (st : AppState) (id nt ct : String)
    (h : findByFingerprint st.reports (submissionFingerprint q ct) = none) :
    (processIncoming id nt ct q st).1.report_id = id
    ∧ (processIncoming id nt ct q st).1.status = "received" := by
  constructor
  · rw [processIncoming_fst, projOut_report_id, intakeStored_report_id]
    simp [intakeReportId, h, dupTruthy]
  · rw [processIncoming_fst, projOut_status, intakeStored_status]
    simp [h, dupTruthy]

theorem second_submission_duplicate
    (p q : ReportIn) (st : AppState) (id1 nt1 ct1 id2 nt2 ct2 : String)
    (hfp : submissionFingerprint q ct2 = submissionFingerprint p ct1)
    (hid1 : id1 ≠ "")
    (hid1new : dbGetRow st.reports id1 = none)
    (hwf : ∀ r ∈ st.reports, r.report_id ≠ "") :
    (processIncoming id2 nt2 ct2 q (processIncoming id1 nt1 ct1 p st).2).1.report_id
        = (processIncoming id1 nt1 ct1 p st).1.report_id
    ∧ (processIncoming id2 nt2 ct2 q (processIncoming id1 nt1 ct1 p st).2).1.status
        = "duplicate" := by
  obtain ⟨h1, h2⟩ := run1_fbf p st id1 nt1 ct1 hid1 hid1new hwf
  exact run_duplicate q _ id2 nt2 ct2 _ (by rw [hfp]; exact h1) h2

/-- The first run adds no row carrying a different fingerprint: a fingerprint
unseen before the run and different from the submitted one is still unseen. -/
theorem fbf_preserved_by_run (p : ReportIn) (st : AppState) (id nt ct fpq : String)
    (hne : fpq ≠ submissionFingerprint p ct)
    (h0 : findByFingerprint st.reports fpq = none) :
    findByFingerprint (processIncoming id nt ct p st).2.reports fpq = none := by
  rw [processIncoming_reports]
  rcases hg : dbGetRow st.reports (intakeStored id nt ct p st.reports).report_id
      with _ | r0
  · rw [upsertReport_snd_none hg, findByFingerprint_append_none _ h0]
    have e1 : (rowOfStored (intakeStored id nt ct p st.reports)).fingerprint
        = submissionFingerprint p ct := rfl
    rw [e1, if_neg]
    simp only [beq_iff_eq]
    exact fun hc => hne hc.symm
  · rw [upsertReport_snd_some hg, findByFingerprint_refresh]
    exact h0

/-- The output id of a run always has a row in the post-state. -/
theorem out_id_present (p : ReportIn) (st : AppState) (id nt ct : String) :
    (dbGetRow (processIncoming id nt ct p st).2.reports
        (processIncoming id nt ct p st).1.report_id).isSome := by
  rw [processIncoming_fst, processIncoming_reports, projOut_report_id,
      intakeStored_report_id]
  by_cases t : dupTruthy (findByFingerprint st.reports (submissionFingerprint p ct)) = true
  · obtain ⟨r, hdup, hr⟩ := (dupTruthy_true_iff _).mp t
    have hrid : intakeReportId id p ct st.reports = r := by
      simp [intakeReportId, hdup, dupTruthy, hr]
    rw [hrid]
    have hsome := dbGetRow_isSome_of_fbf hdup
    rcases hrow : dbGetRow st.reports r with _ | row0
    · rw [hrow] at hsome
      cases hsome
    · have hgr : dbGetRow st.reports (intakeStored id nt ct p st.reports).report_id
          = some row0 := by
        rw [intakeStored_report_id, hrid]
        exact hrow
      rw [upsertReport_snd_some hgr, intakeStored_report_id, hrid,
          dbGetRow_refresh_self _ _ hrow]
      rfl
  · have t2 : dupTruthy (findByFingerprint st.reports (submissionFingerprint p ct))
        = false := by
      revert t
      cases dupTruthy (findByFingerprint st.reports (submissionFingerprint p ct)) <;> simp
    have hrid : intakeReportId id p ct st.reports = id := by
      simp [intakeReportId, t2]
    rw [hrid]
    rcases hrow : dbGetRow st.reports id with _ | row0
    · have hgr : dbGetRow st.reports (intakeStored id nt ct p st.reports).report_id
          = none := by
        rw [intakeStored_report_id, hrid]
        exact hrow
      rw [upsertReport_snd_none hgr, dbGetRow_append_of_none _ hrow]
      have e2 : (rowOfStored (intakeStored id nt ct p st.reports)).report_id = id := by
        show (intakeStored id nt ct p st.reports).report_id = id
        rw [intakeStored_report_id, hrid]
      rw [e2]
      simp
    · have hgr : dbGetRow st.reports (intakeStored id nt ct p st.reports).report_id
          = some row0 := by
        rw [intakeStored_report_id, hrid]
        exact hrow
      rw [upsertReport_snd_some hgr, intakeStored_report_id, hrid,
          dbGetRow_refresh_self _ _ hrow]
      rfl

/-- C1 (amended): with `event_datetime` supplied, re-running the intake
pipeline on the same payload returns the same report_id the second time with
status "duplicate" (given a fresh nonempty uuid for the first run over a
store of nonempty ids).  A payload differing in any one of the five
fingerprint fields *after normalization* produces a different pre-hash
fingerprint base, and whenever its SHA-256 fingerprint consequently differs
and is not already stored, it is assigned the fresh report_id with status
"received" — a genuinely new identity distinct from the first report's. -/
theorem C1_intake_dedup_amended
    (p q : ReportIn) (st : AppState) (dt id1 nt1 ct1 id2 nt2 ct2 : String)
    (hdt : p.event_datetime = some dt)
    (hid1 : id1 ≠ "")
    (hid1new : dbGetRow st.reports id1 = none)
    (hwf : ∀ r ∈ st.reports, r.report_id ≠ "") :
    ((processIncoming id2 nt2 ct2 p (processIncoming id1 nt1 ct1 p st).2).1.report_id
        = (processIncoming id1 nt1 ct1 p st).1.report_id
      ∧ (processIncoming id2 nt2 ct2 p (processIncoming id1 nt1 ct1 p st).2).1.status
        = "duplicate")
    ∧ (∀ u v : PyDict,
        (normalizeVal (dictGet u "event_datetime") = normalizeVal (dictGet v "event_datetime") →
         normalizeVal (dictGet u "device_name") = normalizeVal (dictGet v "device_name") →
         normalizeVal (dictGet u "model") = normalizeVal (dictGet v "model") →
         normalizeVal (dictGet u "lot_sn") = normalizeVal (dictGet v "lot_sn") →
         normalizeVal (dictGet u "hospital_id") ≠ normalizeVal (dictGet v "hospital_id") →
         fingerprintBase u ≠ fingerprintBase v)
        ∧ (normalizeVal (dictGet u "hospital_id") = normalizeVal (dictGet v "hospital_id") →
           normalizeVal (dictGet u "device_name") = normalizeVal (dictGet v "device_name") →
           normalizeVal (dictGet u "model") = normalizeVal (dictGet v "model") →
           normalizeVal (dictGet u "lot_sn") = normalizeVal (dictGet v "lot_sn") →
           normalizeVal (dictGet u "event_datetime") ≠ normalizeVal (dictGet v "event_datetime") →
           fingerprintBase u ≠ fingerprintBase v)
        ∧ (normalizeVal (dictGet u "hospital_id") = normalizeVal (dictGet v "hospital_id") →
           normalizeVal (dictGet u "event_datetime") = normalizeVal (dictGet v "event_datetime") →
           normalizeVal (dictGet u "model") = normalizeVal (dictGet v "model") →
           normalizeVal (dictGet u "lot_sn") = normalizeVal (dictGet v "lot_sn") →
           normalizeVal (dictGet u "device_name") ≠ normalizeVal (dictGet v "device_name") →
           fingerprintBase u ≠ fingerprintBase v)
        ∧ (normalizeVal (dictGet u "hospital_id") = normalizeVal (dictGet v "hospital_id") →
           normalizeVal (dictGet u "event_datetime") = normalizeVal (dictGet v "event_datetime") →
           normalizeVal (dictGet u "device_name") = normalizeVal (dictGet v "device_name") →
           normalizeVal (dictGet u "lot_sn") = normalizeVal (dictGet v "lot_sn") →
           normalizeVal (dictGet u "model") ≠ normalizeVal (dictGet v "model") →
           fingerprintBase u ≠ fingerprintBase v)
        ∧ (normalizeVal (dictGet u "hospital_id") = normalizeVal (dictGet v "hospital_id") →
           normalizeVal (dictGet u "event_datetime") = normalizeVal (dictGet v "event_datetime") →
           normalizeVal (dictGet u "device_name") = normalizeVal (dictGet v "device_name") →
           normalizeVal (dictGet u "model") = normalizeVal (dictGet v "model") →
           normalizeVal (dictGet u "lot_sn") ≠ normalizeVal (dictGet v "lot_sn") →
           fingerprintBase u ≠ fingerprintBase v))
    ∧ (findByFingerprint st.reports (submissionFingerprint q ct2) = none →
       submissionFingerprint q ct2 ≠ submissionFingerprint p ct1 →
       dbGetRow (processIncoming id1 nt1 ct1 p st).2.reports id2 = none →
       ((processIncoming id2 nt2 ct2 q (processIncoming id1 nt1 ct1 p st).2).1.report_id
          = id2
        ∧ (processIncoming id2 nt2 ct2 q (processIncoming id1 nt1 ct1 p st).2).1.status
          = "received"
        ∧ id2 ≠ (processIncoming id1 nt1 ct1 p st).1.report_id)) := by
  refine ⟨?_, ?_, ?_⟩
  · have hct : ∀ ct : String, submissionFingerprint p ct = fingerprint (reportInDict p) := by
      intro ct
      unfold submissionFingerprint
      rw [defaultedDict_of_some hdt]
    exact second_submission_duplicate p p st id1 nt1 ct1 id2 nt2 ct2
      ((hct ct2).trans (hct ct1).symm) hid1 hid1new hwf
  · intro u v
    refine ⟨?_, ?_, ?_, ?_, ?_⟩
    · intro h2 h3 h4 h5 hne heq
      rw [fingerprintBase_expand, fingerprintBase_expand, h2, h3, h4, h5] at heq
      exact hne (strAppend_cancel_right (strAppend_cancel_right heq))
    · intro h1 h3 h4 h5 hne heq
      rw [fingerprintBase_expand, fingerprintBase_expand, h1, h3, h4, h5] at heq
      have heq2 := strAppend_cancel_left heq
      exact hne (strAppend_cancel_right (strAppend_cancel_right heq2))
    · intro h1 h2 h4 h5 hne heq
      rw [fingerprintBase_expand, fingerprintBase_expand, h1, h2, h4, h5] at heq
      have heq2 := strAppend_cancel_left (strAppend_cancel_left heq)
      exact hne (strAppend_cancel_right (strAppend_cancel_right heq2))
    · intro h1 h2 h3 h5 hne heq
      rw [fingerprintBase_expand, fingerprintBase_expand, h1, h2, h3, h5] at heq
      have heq2 := strAppend_cancel_left (strAppend_cancel_left
        (strAppend_cancel_left heq))
      exact hne (strAppend_cancel_right (strAppend_cancel_right heq2))
    · intro h1 h2 h3 h4 hne heq
      rw [fingerprintBase_expand, fingerprintBase_expand, h1, h2, h3, h4] at heq
      exact hne (strAppend_cancel_left (strAppend_cancel_left
        (strAppend_cancel_left (strAppend_cancel_left heq))))
  · intro hq0 hneq hid2new
    have hq1 := fbf_preserved_by_run p st id1 nt1 ct1
      (submissionFingerprint q ct2) hneq hq0
    obtain ⟨ha, hb⟩ :=
      run_received q (processIncoming id1 nt1 ct1 p st).2 id2 nt2 ct2 hq1
    refine ⟨ha, hb, ?_⟩
    intro heqid
    have hpres := out_id_present p st id1 nt1 ct1
    rw [← heqid, hid2new] at hpres
    cases hpres

/-- C1 witness: a concrete re-submission of the same payload over an empty
store comes back with status "duplicate". -/
theorem C1_intake_dedup_amended_witness :
    (processIncoming "uuid-2" "t2" "c2" sampleSubmission
        (processIncoming "uuid-1" "t1" "c1" sampleSubmission emptyAppState).2).1.status
      = "duplicate" :=
  ((C1_intake_dedup_amended sampleSubmission sampleSubmissionOtherDevice emptyAppState
      "2024-01-01T10:00:00" "uuid-1" "t1" "c1" "uuid-2" "t2" "c2"
      rfl (by decide) rfl (by simp [emptyAppState])).1).2

/-- C1 counterexample to the claim as frozen: the second payload differs
from the first in the fingerprint field `hospital_id` ("hosp-a" vs
"HOSP-A"), yet the pipeline assigns it the first report's id with status
"duplicate" rather than a fresh id with status "received", because the
fingerprint normalizes case away. -/
theorem C1_counterexample :
    sampleSubmission.hospital_id ≠ sampleSubmissionCased.hospital_id
    ∧ (processIncoming "uuid-2" "t2" "c2" sampleSubmissionCased
        (processIncoming "uuid-1" "t1" "c1" sampleSubmission emptyAppState).2).1.status
        = "duplicate"
    ∧ (processIncoming "uuid-2" "t2" "c2" sampleSubmissionCased
        (processIncoming "uuid-1" "t1" "c1" sampleSubmission emptyAppState).2).1.report_id
        = "uuid-1"
    ∧ "uuid-1" ≠ "uuid-2" := by
  have hfp : submissionFingerprint sampleSubmissionCased "c2"
      = submissionFingerprint sampleSubmission "c1" := rfl
  have h := second_submission_duplicate sampleSubmission sampleSubmissionCased
    emptyAppState "uuid-1" "t1" "c1" "uuid-2" "t2" "c2" hfp (by decide) rfl (by simp [emptyAppState])
  have hout1 : (processIncoming "uuid-1" "t1" "c1" sampleSubmission
      emptyAppState).1.report_id = "uuid-1" :=
    (run_received sampleSubmission emptyAppState "uuid-1" "t1" "c1" rfl).1
  exact ⟨by decide, h.2, h.1.trans hout1, by decide⟩

theorem removePii_lookup_pii (d : PyDict) (k : String) (hk : k ∈ PII_FIELDS) :
    (removePii d).lookup k = none := by
  induction d with
  | nil => rfl
  | cons kv rest ih =>
    obtain ⟨a, b⟩ := kv
    by_cases hc : a ∈ PII_FIELDS
    · have hstep : removePii ((a, b) :: rest) = removePii rest := by
        simp [removePii, List.filter_cons, hc]
      rw [hstep]
      exact ih
    · have hstep : removePii ((a, b) :: rest) = (a, b) :: removePii rest := by
        simp [removePii, List.filter_cons, hc]
      have hne : (k == a) = false := by
        simp only [beq_eq_false_iff_ne, ne_eq]
        intro he
        exact hc (he ▸ hk)
      rw [hstep]
      simp only [List.lookup, hne]
      exact ih

theorem removePii_lookup_other (d : PyDict) (k : String) (hk : k ∉ PII_FIELDS) :
    (removePii d).lookup k = d.lookup k := by
  induction d with
  | nil => rfl
  | cons kv rest ih =>
    obtain ⟨a, b⟩ := kv
    by_cases hc : a ∈ PII_FIELDS
    · have hstep : removePii ((a, b) :: rest) = removePii rest := by
        simp [removePii, List.filter_cons, hc]
      have hne : (k == a) = false := by
        simp only [beq_eq_false_iff_ne, ne_eq]
        intro he
        exact hk (he ▸ hc)
      rw [hstep, ih]
      simp only [List.lookup, hne]
    · have hstep : removePii ((a, b) :: rest) = (a, b) :: removePii rest := by
        simp [removePii, List.filter_cons, hc]
      rw [hstep]
      simp only [List.lookup]
      cases k == a
      · exact ih
      · rfl

theorem removePii_noop (d : PyDict) (h : ∀ kv ∈ d, kv.1 ∉ PII_FIELDS) :
    removePii d = d := by
  unfold removePii
  rw [List.filter_eq_self]
  intro kv hkv
  simp [h kv hkv]

/-- C3: the de-identification step removes exactly the four PII keys —
their entries are gone from the result, every other key/value entry is
unchanged, and the function is a no-op when no PII key is present — and the
whole intake pipeline (returned report, persisted rows, audit entries,
graph writes) is invariant under blanking the PII fields, so the persisted
and returned record carries none of those keys or their values. -/
theorem C3_pii_removed :
    (∀ (d : PyDict), ∀ k ∈ PII_FIELDS, (removePii d).lookup k = none)
    ∧ (∀ (d : PyDict) (k : String), k ∉ PII_FIELDS →
        (removePii d).lookup k = d.lookup k)
    ∧ (∀ d : PyDict, (∀ kv ∈ d, kv.1 ∉ PII_FIELDS) → removePii d = d)
    ∧ (∀ (id nt ct : String) (p : ReportIn) (st : AppState),
        processIncoming id nt ct p st = processIncoming id nt ct (scrubPII p) st) := by
  refine ⟨fun d k hk => removePii_lookup_pii d k hk,
          fun d k hk => removePii_lookup_other d k hk,
          fun d h => removePii_noop d h, ?_⟩
  intro id nt ct p st
  rcases p with ⟨f1, f2, f3, f4, f5, fdt, f7, f8, f9, f10, f11, f12, f13, f14⟩
  cases fdt <;> rfl

/-- C3 witness: the PII keys of a concrete payload dict are gone after
`remove_pii`, a non-PII key keeps its value, and a concrete intake run is
unchanged by blanking the PII fields. -/
theorem C3_pii_removed_witness :
    (removePii sampleDictV).lookup "patient_name" = none
    ∧ (removePii sampleDictV).lookup "event_description"
        = sampleDictV.lookup "event_description"
    ∧ processIncoming "uuid-1" "t1" "c1"
        { sampleSubmission with patient_name := some "Alice",
                                clinician_name := some "Bob" } emptyAppState
      = processIncoming "uuid-1" "t1" "c1"
        (scrubPII { sampleSubmission with patient_name := some "Alice",
                                          clinician_name := some "Bob" }) emptyAppState :=
  ⟨C3_pii_removed.1 sampleDictV "patient_name" (by decide),
   C3_pii_removed.2.1 sampleDictV "event_description" (by decide),
   C3_pii_removed.2.2.2 "uuid-1" "t1" "c1" _ emptyAppState⟩

/-- C6: risk analysis is a total function of the graph snapshot that never
propagates an exception to its caller: an empty nodes or edges list yields
the zero-finding result with the explanatory message, a normally completing
analyzer body is returned as-is, and an analyzer exception is converted to a
zero-finding payload carrying the error text. -/
theorem C6_risk_never_raises (gd : GraphData) :
    ((gd.nodes.isEmpty || gd.edges.isEmpty) = true →
      analyzeRisksInGraph gd
        = { total_risks := 0, high_risks := 0, medium_risks := 0, low_risks := 0,
            risk_details := [], message := some "图数据为空，无法进行风险分析",
            error := none })
    ∧ (∀ r : RiskResult, (gd.nodes.isEmpty || gd.edges.isEmpty) = false →
        analyzeGraphData gd.nodes gd.edges = .ok r → analyzeRisksInGraph gd = r)
    ∧ (∀ e : String, (gd.nodes.isEmpty || gd.edges.isEmpty) = false →
        analyzeGraphData gd.nodes gd.edges = .error e →
        analyzeRisksInGraph gd
          = { total_risks := 0, high_risks := 0, medium_risks := 0, low_risks := 0,
              risk_details := [], message := none,
              error := some ("风险分析过程中出现错误: " ++ e) }) := by
  refine ⟨?_, ?_, ?_⟩
  · intro h
    simp [analyzeRisksInGraph, h]
  · intro r h hok
    simp [analyzeRisksInGraph, h, hok]
  · intro e h herr
    simp [analyzeRisksInGraph, h, herr]

/-- C6 witness: the empty graph returns zero findings with the message. -/
theorem C6_risk_never_raises_witness :
    analyzeRisksInGraph ⟨[], []⟩
      = { total_risks := 0, high_risks := 0, medium_risks := 0, low_risks := 0,
          risk_details := [], message := some "图数据为空，无法进行风险分析",
          error := none } :=
  (C6_risk_never_raises ⟨[], []⟩).1 rfl

/-- C7: every high-severity-cluster finding arises from a device group of at
least two severe/death reports, with risk_score `min(count · 0.4, 1)` and
risk_level "high" exactly when the count is at least 3 (otherwise "medium");
conversely every group of at least two such reports produces the finding;
and on the concrete graph of one device linked to three severe reports the
full analysis yields exactly one finding — a "high_severity_cluster" at
level "high" with score `min(3 · 0.4, 1) = 1`. -/
theorem C7_high_severity_cluster (nodes : List GNode) (edges : List GEdge) :
    (∀ f ∈ clusterFindings nodes edges,
        f.risk_type = "high_severity_cluster"
        ∧ ∃ g ∈ deviceSeverityGroups nodes edges,
            2 ≤ g.2.length
            ∧ f.risk_score = min (g.2.length * (2/5 : ℚ)) 1
            ∧ (f.risk_level = "high" ↔ 3 ≤ g.2.length)
            ∧ (f.risk_level = "medium" ↔ g.2.length = 2))
    ∧ (∀ g ∈ deviceSeverityGroups nodes edges, 2 ≤ g.2.length →
        ∃ f ∈ clusterFindings nodes edges,
          f.risk_type = "high_severity_cluster"
          ∧ f.risk_score = min (g.2.length * (2/5 : ℚ)) 1
          ∧ f.risk_level = (if 3 ≤ g.2.length then "high" else "medium")
          ∧ f.evidence = REvidence.cluster g.1 g.2.length
              (g.2.map (fun e => e.severity)) (g.2.take 3))
    ∧ ((analyzeRisksInGraph clusterGraph).risk_details.map
          (fun f => (f.risk_type, f.risk_level, f.risk_score))
        = [("high_severity_cluster", "high", 1)]
       ∧ (analyzeRisksInGraph clusterGraph).total_risks = 1
       ∧ min (3 * (2/5 : ℚ)) 1 = 1) := by
  refine ⟨?_, ?_, ?_, ?_, ?_⟩
  · intro f hf
    unfold clusterFindings at hf
    obtain ⟨g, hg, hfn⟩ := List.mem_filterMap.mp hf
    by_cases h2 : 2 ≤ g.2.length
    · rw [if_pos h2] at hfn
      injection hfn with hfn
      subst hfn
      refine ⟨rfl, g, hg, h2, rfl, ?_, ?_⟩
      · by_cases h3 : 3 ≤ g.2.length <;> simp [h3]
      · by_cases h3 : 3 ≤ g.2.length <;> simp [h3] <;> omega
    · rw [if_neg h2] at hfn
      cases hfn
  · intro g hg h2
    exact ⟨_, List.mem_filterMap.mpr ⟨g, hg, if_pos h2⟩, rfl, rfl, rfl, rfl⟩
  · with_unfolding_all decide
  · with_unfolding_all decide
  · with_unfolding_all decide

/-- C7 witness: the concrete three-severe-reports group of `clusterGraph`
produces its cluster finding. -/
theorem C7_high_severity_cluster_witness :
    ∃ f ∈ clusterFindings clusterGraph.nodes clusterGraph.edges,
      f.risk_type = "high_severity_cluster"
      ∧ f.risk_score = min (3 * (2/5 : ℚ)) 1
      ∧ f.risk_level = "high" := by
  obtain ⟨f, hmem, ht, hs, hl, _⟩ :=
    (C7_high_severity_cluster clusterGraph.nodes clusterGraph.edges).2.1
      ("PumpX",
        [⟨"r1", "AdverseEventReport", "severe", "", ""⟩,
         ⟨"r2", "AdverseEventReport", "severe", "", ""⟩,
         ⟨"r3", "AdverseEventReport", "severe", "", ""⟩])
      (by with_unfolding_all decide) (by decide)
  exact ⟨f, hmem, ht, hs, by simpa using hl⟩

/-- C5 (amended): when all four auto-extracted fields carry placeholder
values, each of those four per-field confidences is 0.2 and
treatment_action confidence is 1.0, but the overall analysis confidence is
0 — each placeholder field contributes 0 to the confident-field sum divided
by 4 — not 0.2. -/
theorem C5_placeholder_confidence (ed : ExtractedData) (matched : List MatchedTerm)
    (h1 : ed.device_issue ∈ PLACEHOLDERS) (h2 : ed.failure_mode ∈ PLACEHOLDERS)
    (h3 : ed.clinical_manifestation ∈ PLACEHOLDERS)
    (h4 : ed.health_impact ∈ PLACEHOLDERS) :
    (calculateConfidence ed matched).overall = 0
    ∧ (calculateConfidence ed matched).breakdown
        = ⟨1/5, 1/5, 1/5, 1/5, 1⟩ := by
  simp only [calculateConfidence, fieldConfidence, if_pos h1, if_pos h2, if_pos h3,
    if_pos h4]
  constructor
  · norm_num
  · trivial

/-- C5 counterexample to the claim as frozen: with every auto-extracted
field a placeholder the overall confidence evaluates to 0, not 0.2. -/
theorem C5_counterexample :
    (calculateConfidence edAllPlaceholders []).overall = 0
    ∧ (calculateConfidence edAllPlaceholders []).overall ≠ 1/5 := by
  constructor
  · with_unfolding_all decide
  · with_unfolding_all decide

/-- C5 witness: the all-placeholder extraction with no matched terms. -/
theorem C5_placeholder_confidence_witness :
    (calculateConfidence edAllPlaceholders []).overall = 0
    ∧ (calculateConfidence edAllPlaceholders []).breakdown
        = ⟨1/5, 1/5, 1/5, 1/5, 1⟩ :=
  C5_placeholder_confidence edAllPlaceholders []
    (by decide) (by decide) (by decide) (by decide)

theorem lookup_map_apply {β : Type} (f : String → β) (cs : List String) (c : String)
    (res : β) (h : (cs.map (fun x => (x, f x))).lookup c = some res) : res = f c := by
  induction cs with
  | nil => cases h
  | cons a rest ih =>
    simp only [List.map, List.lookup] at h
    cases hbc : c == a with
    | true =>
      rw [hbc] at h
      injection h with h
      have hca : c = a := by simpa using hbc
      rw [hca]
      exact h.symm
    | false =>
      rw [hbc] at h
      exact ih h

/-- C8: for every scoring environment, query, category list, `top_k` and
threshold, the per-category result of `search` contains only pairs whose
score is at least the threshold, is sorted in descending score order, has
at most `top_k` entries, and is empty whenever the threshold exceeds every
candidate's score for the query. -/
theorem C8_search_postprocessing
    (scoreOf : String → String → Term → ℚ) (terms : List (String × List Term))
    (text : String) (categories : List String) (top_k : ℕ) (threshold : ℚ)
    (c : String) (res : List (Term × ℚ))
    (hres : (search scoreOf terms text categories top_k threshold).lookup c
      = some res) :
    (∀ x ∈ res, threshold ≤ x.2)
    ∧ List.Pairwise (fun a b : Term × ℚ => b.2 ≤ a.2) res
    ∧ res.length ≤ top_k
    ∧ ((∀ t ∈ (terms.lookup c).getD [],
          scoreOf (normalizeText text) c t < threshold) →
        res = []) := by
  have hr := lookup_map_apply
    (fun c => searchCategory (scoreOf (normalizeText text) c)
      ((terms.lookup c).getD []) top_k threshold)
    categories c res hres
  subst hr
  simp only [searchCategory]
  refine ⟨?_, ?_, ?_, ?_⟩
  · intro x hx
    have hx1 := List.take_subset _ _ hx
    have hx2 := (List.perm_insertionSort
      (fun a b : Term × ℚ => b.2 ≤ a.2) _).mem_iff.mp hx1
    simpa using List.of_mem_filter hx2
  · exact (List.sorted_insertionSort
      (fun a b : Term × ℚ => b.2 ≤ a.2) _).sublist (List.take_sublist _ _)
  · rw [List.length_take]
    exact min_le_left _ _
  · intro hall
    have hnil : (((terms.lookup c).getD []).map
        (fun t => (t, scoreOf (normalizeText text) c t))).filter
          (fun x => decide (threshold ≤ x.2)) = [] := by
      rw [List.filter_eq_nil_iff]
      intro x hxm
      obtain ⟨t, ht, rfl⟩ := List.mem_map.mp hxm
      simpa using not_le.mpr (hall t ht)
    rw [hnil]
    simp

set_option maxRecDepth 2000 in
/-- C8 witness: a two-term category under a concrete scoring environment
comes back threshold-filtered, descending and within `top_k`. -/
theorem C8_search_postprocessing_witness :
    (∀ x ∈ [(termA2, mkRat 3 5), (termA1, mkRat 1 2)], mkRat 2 5 ≤ x.2)
    ∧ List.Pairwise (fun a b : Term × ℚ => b.2 ≤ a.2)
        [(termA2, mkRat 3 5), (termA1, mkRat 1 2)]
    ∧ [(termA2, mkRat 3 5), (termA1, mkRat 1 2)].length ≤ 5 := by
  obtain ⟨h1, h2, h3, _⟩ := C8_search_postprocessing scoreFixture termsFixture
    "q" ["A"] 5 (mkRat 2 5) "A" [(termA2, mkRat 3 5), (termA1, mkRat 1 2)]
    (by decide)
  exact ⟨h1, h2, h3⟩
